import Mathlib

/-!
Verification of the DevEngine Kubernetes manifest generator
(`backend/generators/kubernetes.js`).

The generator is a pure function from a topology payload to a mapping
filename → YAML text.  This file gives a shallow embedding of that
function in Lean, translated line by line from the JavaScript source,
and proves the specified properties about it.

Modelling conventions:
* JavaScript `undefined` for an optional field is `Option.none`; absent
  string fields and the empty string are both JS-falsy, so truthiness
  tests (`if (!x)`, `x || d`) are modelled by `strT` / `orS` on
  `Option String` (with `some ""` falsy, as in the source).  Numeric
  truthiness (`port || d`, where `0` is falsy) is `orN` / `orP`.
* A JS object used as a string-keyed map (the `files` accumulator and
  the per-tier reference maps) is an association list with
  assign-or-append update (`putFile` / `putRef`), which is exactly the
  observable behaviour of property assignment on an object built only
  through such assignments.
* Template literals are string concatenation, transcribed verbatim
  (`\n` escapes included).  `Array.prototype.join('\n')` is `joinLines`.
-/

set_option maxRecDepth 100000

namespace DevEngine

/-- Truthiness of an optional string: JS `!x` is false exactly when the
field is present and non-empty. -/
def strT : Option String → Bool
  | none => false
  | some s => s != ""

/-- JS `x || d` for an optional string field (empty string is falsy). -/
def orS (o : Option String) (d : String) : String :=
  match o with
  | none => d
  | some s => if s = "" then d else s

/-- JS `x || d` for an optional numeric field (`0` is falsy). -/
def orN (o : Option Nat) (d : Nat) : Nat :=
  match o with
  | none => d
  | some n => if n = 0 then d else n

/-- JS `n || d` for a present numeric value (`0` is falsy). -/
def orP (n : Nat) (d : Nat) : Nat :=
  if n = 0 then d else n

/-- `Array.prototype.join('\n')`. -/
def joinLines : List String → String
  | [] => ""
  | [x] => x
  | x :: y :: xs => x ++ "\n" ++ joinLines (y :: xs)

/-- One `{name, value}` environment entry. -/
structure EnvVar where
  name : String
  value : String
deriving DecidableEq, Repr

/-- One `{key, value}` entry of `configMapData` / `secretData`. -/
structure KVPair where
  key : String
  value : String
deriving DecidableEq, Repr

/-- The `resources` block of a tier (all four fields optional). -/
structure ResourceSpec where
  requestsCpu : Option String := none
  requestsMemory : Option String := none
  limitsCpu : Option String := none
  limitsMemory : Option String := none
deriving DecidableEq, Repr

/-- A liveness/readiness probe block. -/
structure ProbeSpec where
  path : Option String := none
  port : Option Nat := none
  initialDelaySeconds : Option Nat := none
  periodSeconds : Option Nat := none
deriving DecidableEq, Repr

/-- The `pvc` block of a tier. -/
structure PVCSpec where
  enabled : Bool := false
  storageClass : Option String := none
  size : Option String := none
  accessMode : Option String := none
  mountPath : Option String := none
deriving DecidableEq, Repr

/-- The `pv` block of a tier: a type tag plus per-backend fields. -/
structure PVSpec where
  enabled : Bool := false
  type : Option String := none
  size : Option String := none
  accessMode : Option String := none
  reclaimPolicy : Option String := none
  storageClass : Option String := none
  hostPath : Option String := none
  nfsServer : Option String := none
  nfsPath : Option String := none
  localPath : Option String := none
  awsVolumeID : Option String := none
  awsFsType : Option String := none
  gcePdName : Option String := none
  gceFsType : Option String := none
  azureDiskName : Option String := none
  azureDiskURI : Option String := none
  azureKind : Option String := none
  azureCachingMode : Option String := none
  cephMonitors : Option String := none
  cephPool : Option String := none
  cephImage : Option String := none
  cephUser : Option String := none
  cephSecretName : Option String := none
  cephFsType : Option String := none
  iscsiTargetPortal : Option String := none
  iscsiIqn : Option String := none
  iscsiLun : Option String := none
  iscsiFsType : Option String := none
deriving DecidableEq, Repr

/-- The `service` block of a tier. -/
structure ServiceSpec where
  type : String
  port : Nat
  targetPort : Option Nat := none
deriving DecidableEq, Repr

/-- The `ingress` block of a tier. -/
structure IngressSpec where
  host : String
  path : String
deriving DecidableEq, Repr

/-- One workload unit of the topology request. -/
structure Tier where
  name : String
  replicas : Nat
  image : String
  containerPort : Nat
  workloadType : Option String := none
  env : List EnvVar := []
  configMapData : List KVPair := []
  secretData : List KVPair := []
  resources : Option ResourceSpec := none
  livenessProbe : Option ProbeSpec := none
  readinessProbe : Option ProbeSpec := none
  pvc : Option PVCSpec := none
  pv : Option PVSpec := none
  service : Option ServiceSpec := none
  ingress : Option IngressSpec := none
deriving DecidableEq, Repr

/-- The root topology request.  `nspace` is the source's `namespace`
field (a Lean keyword).  A missing `appName`/`namespace` and the empty
string are indistinguishable to the generator (both JS-falsy), as are a
missing `tiers` array and an empty one, so they are conflated here. -/
structure Payload where
  appName : String
  nspace : String
  createNamespace : Bool := false
  enableRBAC : Bool := false
  tiers : List Tier
deriving DecidableEq, Repr

/-- The filename → content mapping the generator accumulates. -/
abbrev Files := List (String × String)

/-- JS object property assignment `files[k] = v`: overwrite the existing
entry for `k`, or append a new one. -/
def putFile : Files → String → String → Files
  | [], k, v => [(k, v)]
  | e :: rest, k, v => if e.1 = k then (k, v) :: rest else e :: putFile rest k v

/-- JS object property read `files[k]`. -/
def getFile : Files → String → Option String
  | [], _ => none
  | e :: rest, k => if e.1 = k then some e.2 else getFile rest k

/-- The key set (`Object.keys`) of the mapping. -/
def keys (fs : Files) : List String :=
  fs.map Prod.fst

/-- JS object property assignment for a reference map keyed by tier name. -/
def putRef {α : Type} : List (String × α) → String → α → List (String × α)
  | [], k, v => [(k, v)]
  | e :: rest, k, v => if e.1 = k then (k, v) :: rest else e :: putRef rest k v

/-- JS object property read for a reference map. -/
def getRef {α : Type} : List (String × α) → String → Option α
  | [], _ => none
  | e :: rest, k => if e.1 = k then some e.2 else getRef rest k

/-- Lines pushed by `renderResources` before indentation is applied. -/
def resourceLines (res : ResourceSpec) : List String :=
  (if strT res.requestsCpu || strT res.requestsMemory then
    ["requests:"]
      ++ (match res.requestsCpu with
          | some s => if s = "" then [] else ["  cpu: \"" ++ s ++ "\""]
          | none => [])
      ++ (match res.requestsMemory with
          | some s => if s = "" then [] else ["  memory: \"" ++ s ++ "\""]
          | none => [])
  else [])
  ++
  (if strT res.limitsCpu || strT res.limitsMemory then
    ["limits:"]
      ++ (match res.limitsCpu with
          | some s => if s = "" then [] else ["  cpu: \"" ++ s ++ "\""]
          | none => [])
      ++ (match res.limitsMemory with
          | some s => if s = "" then [] else ["  memory: \"" ++ s ++ "\""]
          | none => [])
  else [])

/-- The source's `renderEnv`. -/
def renderEnv (env : List EnvVar) : String :=
  if env.isEmpty then "" else
  "\n          env:\n"
    ++ joinLines (env.map fun e =>
        "            - name: " ++ e.name ++ "\n              value: \"" ++ e.value ++ "\"")

/-- The source's `renderResources`. -/
def renderResources (resources : Option ResourceSpec) : String :=
  match resources with
  | none => ""
  | some res =>
    if !(strT res.requestsCpu || strT res.requestsMemory
          || strT res.limitsCpu || strT res.limitsMemory) then ""
    else
      let lines := resourceLines res
      if lines.isEmpty then ""
      else
        "\n          resources:\n"
          ++ joinLines (lines.mapIdx fun i l =>
              if i == 0 then "            " ++ l
              else "            " ++ (if l.startsWith "  " then l else "  " ++ l))

/-- The source's `renderHttpProbe`. -/
def renderHttpProbe (probe : Option ProbeSpec) (type : String) : String :=
  match probe with
  | none => ""
  | some pr =>
    match pr.path, pr.port with
    | some path, some port =>
      if path = "" || port = 0 then "" else
      "\n          " ++ type ++ "Probe:\n            httpGet:\n              path: " ++ path
        ++ "\n              port: " ++ toString port
        ++ "\n            initialDelaySeconds: " ++ toString (pr.initialDelaySeconds.getD 10)
        ++ "\n            periodSeconds: " ++ toString (pr.periodSeconds.getD 10)
    | _, _ => ""

/-- Result of `renderConfigMap`: filename, YAML text, generated name. -/
structure CMOut where
  filename : String
  content : String
  cmName : String
deriving DecidableEq, Repr

/-- The source's `renderConfigMap`. -/
def renderConfigMap (tier : Tier) (nspace appName : String) : Option CMOut :=
  if tier.configMapData.isEmpty then none else
  let dataLines := joinLines (tier.configMapData.map fun d =>
    "  " ++ d.key ++ ": \"" ++ d.value ++ "\"")
  let cmName := appName ++ "-" ++ tier.name ++ "-config"
  some { filename := "configmap-" ++ tier.name ++ ".yaml"
         content :=
           "apiVersion: v1\nkind: ConfigMap\nmetadata:\n  name: " ++ cmName
             ++ "\n  namespace: " ++ nspace ++ "\ndata:\n" ++ dataLines ++ "\n"
         cmName := cmName }

/-- Result of `renderSecret`. -/
structure SecretOut where
  filename : String
  content : String
  secretName : String
deriving DecidableEq, Repr

/-- The source's `renderSecret`. -/
def renderSecret (tier : Tier) (nspace appName : String) : Option SecretOut :=
  if tier.secretData.isEmpty then none else
  let dataLines := joinLines (tier.secretData.map fun d =>
    "  " ++ d.key ++ ": \"" ++ d.value ++ "\"")
  let secretName := appName ++ "-" ++ tier.name ++ "-secret"
  some { filename := "secret-" ++ tier.name ++ ".yaml"
         content :=
           "apiVersion: v1\nkind: Secret\nmetadata:\n  name: " ++ secretName
             ++ "\n  namespace: " ++ nspace ++ "\ntype: Opaque\nstringData:\n" ++ dataLines ++ "\n"
         secretName := secretName }

/-- The source's `generateNamespace`. -/
def generateNamespace (nspace : String) : String :=
  "apiVersion: v1\nkind: Namespace\nmetadata:\n  name: " ++ nspace ++ "\n"

/-- Result of `generatePVC`. -/
structure PVCOut where
  filename : String
  content : String
  pvcName : String
deriving DecidableEq, Repr

/-- The source's `generatePVC` (PVC for Deployment tiers). -/
def generatePVC (tier : Tier) (nspace appName : String) : Option PVCOut :=
  match tier.pvc with
  | none => none
  | some pvc =>
    if !pvc.enabled then none else
    let storageClass := pvc.storageClass.getD ""
    let size := pvc.size.getD "5Gi"
    let accessMode := pvc.accessMode.getD "ReadWriteOnce"
    let pvcName := appName ++ "-" ++ tier.name ++ "-pvc"
    let scLine := if storageClass = "" then "" else
      "  storageClassName: \"" ++ storageClass ++ "\"\n"
    some { filename := "pvc-" ++ tier.name ++ ".yaml"
           content :=
             "apiVersion: v1\nkind: PersistentVolumeClaim\nmetadata:\n  name: " ++ pvcName
               ++ "\n  namespace: " ++ nspace
               ++ "\nspec:\n  accessModes:\n    - " ++ accessMode ++ "\n"
               ++ scLine ++ "  resources:\n    requests:\n      storage: " ++ size ++ "\n"
           pvcName := pvcName }

/-- Result of `generatePV`. -/
structure PVOut where
  filename : String
  content : String
deriving DecidableEq, Repr

/-- The `volumeSource` block computed by the eight-way `switch` in
`generatePV`; `none` means the backend's required fields are missing or
the type tag is unrecognized (the `return null` branches). -/
def pvVolumeSource (pv : PVSpec) (tier : Tier) (appName : String) : Option String :=
  match pv.type.getD "" with
  | "hostPath" =>
    some ("  hostPath:\n    path: "
      ++ orS pv.hostPath ("/mnt/data/" ++ appName ++ "-" ++ tier.name) ++ "\n")
  | "nfs" =>
    if !strT pv.nfsServer || !strT pv.nfsPath then none else
    some ("  nfs:\n    server: " ++ pv.nfsServer.getD "" ++ "\n    path: "
      ++ pv.nfsPath.getD "" ++ "\n    readOnly: false\n")
  | "local" =>
    some ("  local:\n    path: "
      ++ orS pv.localPath ("/mnt/local/" ++ appName ++ "-" ++ tier.name) ++ "\n")
  | "awsEbs" =>
    if !strT pv.awsVolumeID then none else
    some ("  awsElasticBlockStore:\n    volumeID: " ++ pv.awsVolumeID.getD ""
      ++ "\n    fsType: " ++ orS pv.awsFsType "ext4" ++ "\n")
  | "gcePd" =>
    if !strT pv.gcePdName then none else
    some ("  gcePersistentDisk:\n    pdName: " ++ pv.gcePdName.getD ""
      ++ "\n    fsType: " ++ orS pv.gceFsType "ext4" ++ "\n")
  | "azureDisk" =>
    if !strT pv.azureDiskName || !strT pv.azureDiskURI then none else
    some ("  azureDisk:\n    diskName: " ++ pv.azureDiskName.getD ""
      ++ "\n    diskURI: " ++ pv.azureDiskURI.getD ""
      ++ "\n    kind: " ++ orS pv.azureKind "Managed"
      ++ "\n    cachingMode: " ++ orS pv.azureCachingMode "None" ++ "\n")
  | "cephRbd" =>
    if !strT pv.cephMonitors || !strT pv.cephPool
        || !strT pv.cephImage || !strT pv.cephUser then none else
    some ("  rbd:\n    monitors: [" ++ pv.cephMonitors.getD "" ++ "]\n    pool: "
      ++ pv.cephPool.getD "" ++ "\n    image: " ++ pv.cephImage.getD ""
      ++ "\n    user: " ++ pv.cephUser.getD ""
      ++ "\n    secretRef:\n      name: " ++ orS pv.cephSecretName (appName ++ "-ceph-secret")
      ++ "\n    fsType: " ++ orS pv.cephFsType "ext4" ++ "\n")
  | "iscsi" =>
    if !strT pv.iscsiTargetPortal || !strT pv.iscsiIqn || !strT pv.iscsiLun then none else
    some ("  iscsi:\n    targetPortal: " ++ pv.iscsiTargetPortal.getD ""
      ++ "\n    iqn: " ++ pv.iscsiIqn.getD ""
      ++ "\n    lun: " ++ pv.iscsiLun.getD ""
      ++ "\n    fsType: " ++ orS pv.iscsiFsType "ext4" ++ "\n")
  | _ => none

/-- The source's `generatePV` (cluster-scoped, user-selectable backend). -/
def generatePV (tier : Tier) (appName : String) : Option PVOut :=
  match tier.pv with
  | none => none
  | some pv =>
    match pv.type with
    | none => none
    | some ty =>
      if !pv.enabled || ty = "" || ty = "none" then none else
      let size := pv.size.getD "5Gi"
      let accessMode := pv.accessMode.getD "ReadWriteOnce"
      let reclaimPolicy := pv.reclaimPolicy.getD "Retain"
      let storageClass := pv.storageClass.getD ""
      let pvName := appName ++ "-" ++ tier.name ++ "-pv"
      let scLine := if storageClass = "" then "" else
        "  storageClassName: \"" ++ storageClass ++ "\"\n"
      match pvVolumeSource pv tier appName with
      | none => none
      | some volumeSource =>
        some { filename := "pv-" ++ tier.name ++ ".yaml"
               content :=
                 "apiVersion: v1\nkind: PersistentVolume\nmetadata:\n  name: " ++ pvName
                   ++ "\nspec:\n  capacity:\n    storage: " ++ size
                   ++ "\n  accessModes:\n    - " ++ accessMode
                   ++ "\n  persistentVolumeReclaimPolicy: " ++ reclaimPolicy ++ "\n"
                   ++ scLine ++ volumeSource }

/-- One entry of a workload's `volumes:` list.  The source pushes one of
three fixed template blocks; the constructor records which. -/
inductive VolumeEntry where
  | configMap (volName refName : String)
  | secret (volName refName : String)
  | pvcClaim (volName claimName : String)
deriving DecidableEq, Repr

/-- Renders one `volumes:` entry exactly as the source pushes it. -/
def renderVolumeEntry : VolumeEntry → String
  | .configMap volName refName =>
    "        - name: " ++ volName ++ "\n          configMap:\n            name: " ++ refName
  | .secret volName refName =>
    "        - name: " ++ volName ++ "\n          secret:\n            secretName: " ++ refName
  | .pvcClaim volName claimName =>
    "        - name: " ++ volName
      ++ "\n          persistentVolumeClaim:\n            claimName: " ++ claimName

/-- Whether a `volumes:` entry references a PVC by claim name. -/
def isPvcClaimEntry : VolumeEntry → Bool
  | .pvcClaim _ _ => true
  | _ => false

/-- The `volumeMounts` list built by `generateDeployment`. -/
def deploymentVolumeMounts (tier : Tier) (cmRef : Option CMOut)
    (secretRef : Option SecretOut) (pvcRef : Option PVCOut) : List String :=
  (match cmRef with
   | some cm => ["            - name: " ++ cm.cmName ++ "-vol\n              mountPath: /config/" ++ tier.name]
   | none => [])
  ++
  (match secretRef with
   | some s => ["            - name: " ++ s.secretName ++ "-vol\n              mountPath: /secrets/" ++ tier.name]
   | none => [])
  ++
  (match pvcRef with
   | some p =>
     let mountPath := match tier.pvc with
       | some pvc => orS pvc.mountPath "/data"
       | none => "/data"
     ["            - name: " ++ p.pvcName ++ "-vol\n              mountPath: " ++ mountPath]
   | none => [])

/-- The `volumes` list built by `generateDeployment`. -/
def deploymentVolumeEntries (cmRef : Option CMOut) (secretRef : Option SecretOut)
    (pvcRef : Option PVCOut) : List VolumeEntry :=
  (match cmRef with
   | some cm => [.configMap (cm.cmName ++ "-vol") cm.cmName]
   | none => [])
  ++
  (match secretRef with
   | some s => [.secret (s.secretName ++ "-vol") s.secretName]
   | none => [])
  ++
  (match pvcRef with
   | some p => [.pvcClaim (p.pvcName ++ "-vol") p.pvcName]
   | none => [])

/-- The source's `generateDeployment`. -/
def generateDeployment (tier : Tier) (nspace appName : String) (cmRef : Option CMOut)
    (secretRef : Option SecretOut) (pvcRef : Option PVCOut) : String :=
  let deploymentName := appName ++ "-" ++ tier.name
  let envSection := renderEnv tier.env
  let resourcesSection := renderResources tier.resources
  let livenessSection := renderHttpProbe tier.livenessProbe "liveness"
  let readinessSection := renderHttpProbe tier.readinessProbe "readiness"
  let volumeMounts := deploymentVolumeMounts tier cmRef secretRef pvcRef
  let volumes := deploymentVolumeEntries cmRef secretRef pvcRef
  let volumeMountsSection := if volumeMounts.isEmpty then "" else
    "\n          volumeMounts:\n" ++ joinLines volumeMounts
  let volumesSection := if volumes.isEmpty then "" else
    "\n      volumes:\n" ++ joinLines (volumes.map renderVolumeEntry)
  ("apiVersion: apps/v1\nkind: Deployment\nmetadata:\n  name: " ++ deploymentName
    ++ "\n  namespace: " ++ nspace
    ++ "\n  labels:\n    app: " ++ appName ++ "\n    tier: " ++ tier.name)
  ++ ("\nspec:\n  replicas: " ++ toString tier.replicas
    ++ "\n  selector:\n    matchLabels:\n      app: " ++ appName
    ++ "\n      tier: " ++ tier.name)
  ++ ("\n  template:\n    metadata:\n      labels:\n        app: " ++ appName
    ++ "\n        tier: " ++ tier.name)
  ++ ("\n    spec:\n      containers:\n        - name: " ++ tier.name
    ++ "\n          image: " ++ tier.image
    ++ "\n          ports:\n            - containerPort: " ++ toString tier.containerPort)
  ++ envSection ++ resourcesSection ++ livenessSection ++ readinessSection
  ++ volumeMountsSection ++ volumesSection ++ "\n"

/-- The `volumeMounts` list built by `generateStatefulSet`. -/
def statefulSetVolumeMounts (tier : Tier) (cmRef : Option CMOut)
    (secretRef : Option SecretOut) : List String :=
  (match cmRef with
   | some cm => ["            - name: " ++ cm.cmName ++ "-vol\n              mountPath: /config/" ++ tier.name]
   | none => [])
  ++
  (match secretRef with
   | some s => ["            - name: " ++ s.secretName ++ "-vol\n              mountPath: /secrets/" ++ tier.name]
   | none => [])
  ++
  (match tier.pvc with
   | some pvc =>
     if pvc.enabled then
       ["            - name: data\n              mountPath: " ++ pvc.mountPath.getD "/data"]
     else []
   | none => [])

/-- The `volumes:` list of a StatefulSet (the source's `extraVolumes`):
only ConfigMap/Secret references, never a PVC claim. -/
def statefulSetVolumeEntries (cmRef : Option CMOut) (secretRef : Option SecretOut) :
    List VolumeEntry :=
  (match cmRef with
   | some cm => [.configMap (cm.cmName ++ "-vol") cm.cmName]
   | none => [])
  ++
  (match secretRef with
   | some s => [.secret (s.secretName ++ "-vol") s.secretName]
   | none => [])

/-- The `volumeClaimTemplates` section pushed by `generateStatefulSet`
when `pvc.enabled` (empty string otherwise). -/
def statefulSetVctSection (tier : Tier) : String :=
  match tier.pvc with
  | some pvc =>
    if pvc.enabled then
      let size := pvc.size.getD "5Gi"
      let storageClass := pvc.storageClass.getD ""
      let accessMode := pvc.accessMode.getD "ReadWriteOnce"
      let scLine := if storageClass = "" then "" else
        "        storageClassName: \"" ++ storageClass ++ "\"\n"
      "\n" ++ ("  volumeClaimTemplates:\n    - metadata:\n        name: data\n      spec:\n        accessModes:\n          - "
        ++ accessMode ++ "\n" ++ scLine
        ++ "        resources:\n          requests:\n            storage: " ++ size)
    else ""
  | none => ""

/-- The source's `generateStatefulSet`. -/
def generateStatefulSet (tier : Tier) (nspace appName : String) (cmRef : Option CMOut)
    (secretRef : Option SecretOut) : String :=
  let ssName := appName ++ "-" ++ tier.name
  let headlessServiceName := appName ++ "-" ++ tier.name ++ "-headless"
  let envSection := renderEnv tier.env
  let resourcesSection := renderResources tier.resources
  let livenessSection := renderHttpProbe tier.livenessProbe "liveness"
  let readinessSection := renderHttpProbe tier.readinessProbe "readiness"
  let volumeMounts := statefulSetVolumeMounts tier cmRef secretRef
  let volumeMountsSection := if volumeMounts.isEmpty then "" else
    "\n          volumeMounts:\n" ++ joinLines volumeMounts
  let extraEntries := statefulSetVolumeEntries cmRef secretRef
  let extraVolumes := if extraEntries.isEmpty then "" else
    "\n      volumes:\n" ++ joinLines (extraEntries.map renderVolumeEntry)
  let vctSection := statefulSetVctSection tier
  ("apiVersion: apps/v1\nkind: StatefulSet\nmetadata:\n  name: " ++ ssName
    ++ "\n  namespace: " ++ nspace
    ++ "\n  labels:\n    app: " ++ appName ++ "\n    tier: " ++ tier.name)
  ++ ("\nspec:\n  serviceName: " ++ headlessServiceName
    ++ "\n  replicas: " ++ toString tier.replicas
    ++ "\n  selector:\n    matchLabels:\n      app: " ++ appName
    ++ "\n      tier: " ++ tier.name)
  ++ ("\n  template:\n    metadata:\n      labels:\n        app: " ++ appName
    ++ "\n        tier: " ++ tier.name)
  ++ ("\n    spec:\n      containers:\n        - name: " ++ tier.name
    ++ "\n          image: " ++ tier.image
    ++ "\n          ports:\n            - containerPort: " ++ toString tier.containerPort)
  ++ envSection ++ resourcesSection ++ livenessSection ++ readinessSection
  ++ volumeMountsSection ++ extraVolumes ++ vctSection ++ "\n"

/-- The source's `generateService`. -/
def generateService (tier : Tier) (nspace appName : String) : Option String :=
  match tier.service with
  | none => none
  | some service =>
    let serviceName := appName ++ "-" ++ tier.name
    some (("apiVersion: v1\nkind: Service\nmetadata:\n  name: " ++ serviceName
      ++ "\n  namespace: " ++ nspace
      ++ "\n  labels:\n    app: " ++ appName ++ "\n    tier: " ++ tier.name)
      ++ ("\nspec:\n  type: " ++ service.type
      ++ "\n  selector:\n    app: " ++ appName ++ "\n    tier: " ++ tier.name
      ++ "\n  ports:\n    - name: http\n      port: " ++ toString service.port
      ++ "\n      targetPort: " ++ toString (orN service.targetPort tier.containerPort) ++ "\n"))

/-- The source's `generateHeadlessService`. -/
def generateHeadlessService (tier : Tier) (nspace appName : String) : String :=
  let serviceName := appName ++ "-" ++ tier.name ++ "-headless"
  ("apiVersion: v1\nkind: Service\nmetadata:\n  name: " ++ serviceName
    ++ "\n  namespace: " ++ nspace
    ++ "\n  labels:\n    app: " ++ appName ++ "\n    tier: " ++ tier.name)
    ++ ("\nspec:\n  clusterIP: None\n  selector:\n    app: " ++ appName
    ++ "\n    tier: " ++ tier.name
    ++ "\n  ports:\n    - name: http\n      port: " ++ toString (orP tier.containerPort 80)
    ++ "\n      targetPort: " ++ toString (orP tier.containerPort 80) ++ "\n")

/-- One path rule collected by `generateIngress` for a qualifying tier. -/
structure IngressRule where
  path : String
  serviceName : String
  servicePort : Nat
deriving DecidableEq, Repr

/-- JS `rulesByHost[host].push(rule)` with on-demand key creation. -/
def putRule : List (String × List IngressRule) → String → IngressRule →
    List (String × List IngressRule)
  | [], host, r => [(host, [r])]
  | e :: rest, host, r =>
    if e.1 = host then (e.1, e.2 ++ [r]) :: rest else e :: putRule rest host r

/-- One iteration of the `tiers.forEach` in `generateIngress`: tiers
with both `ingress` and `service` blocks push one rule under their host. -/
def ingressStep (appName : String) (acc : List (String × List IngressRule))
    (tier : Tier) : List (String × List IngressRule) :=
  match tier.ingress, tier.service with
  | some ing, some service =>
    putRule acc ing.host
      { path := ing.path
        serviceName := appName ++ "-" ++ tier.name
        servicePort := service.port }
  | _, _ => acc

/-- The `rulesByHost` grouping built by `generateIngress`: tiers with
both `ingress` and `service` blocks, grouped by `ingress.host` in first-
occurrence order. -/
def rulesByHost (tiers : List Tier) (appName : String) :
    List (String × List IngressRule) :=
  tiers.foldl (ingressStep appName) []

/-- The YAML text of the single Ingress document for a given grouping. -/
def ingressDoc (groups : List (String × List IngressRule)) (nspace appName : String) :
    String :=
  let rulesYaml := joinLines (groups.map fun g =>
    let pathsYaml := joinLines (g.2.map fun r =>
      "        - path: " ++ r.path
        ++ "\n          pathType: Prefix\n          backend:\n            service:\n              name: "
        ++ r.serviceName ++ "\n              port:\n                number: " ++ toString r.servicePort)
    "  - host: " ++ g.1 ++ "\n    http:\n      paths:\n" ++ pathsYaml)
  ("apiVersion: networking.k8s.io/v1\nkind: Ingress\nmetadata:\n  name: " ++ appName
    ++ "-ingress\n  namespace: " ++ nspace
    ++ "\n  annotations:\n    nginx.ingress.kubernetes.io/rewrite-target: /\nspec:\n  rules:\n")
    ++ rulesYaml ++ "\n"

/-- The source's `generateIngress`: `none` when no tier qualifies. -/
def generateIngress (tiers : List Tier) (nspace appName : String) : Option String :=
  let groups := rulesByHost tiers appName
  if groups.isEmpty then none else some (ingressDoc groups nspace appName)

/-- The source's `generateRBAC`: the three files added by `Object.assign`. -/
def generateRBAC (nspace appName : String) : List (String × String) :=
  let saName := appName ++ "-sa"
  let roleName := appName ++ "-role"
  let rbName := appName ++ "-rb"
  [("serviceaccount.yaml",
    "apiVersion: v1\nkind: ServiceAccount\nmetadata:\n  name: " ++ saName
      ++ "\n  namespace: " ++ nspace ++ "\n"),
   ("role.yaml",
    "apiVersion: rbac.authorization.k8s.io/v1\nkind: Role\nmetadata:\n  name: " ++ roleName
      ++ "\n  namespace: " ++ nspace
      ++ "\nrules:\n  - apiGroups: [\"\"]\n    resources: [\"pods\", \"services\", \"configmaps\", \"secrets\"]\n    verbs: [\"get\", \"list\", \"watch\", \"create\", \"update\", \"delete\"]\n"),
   ("rolebinding.yaml",
    "apiVersion: rbac.authorization.k8s.io/v1\nkind: RoleBinding\nmetadata:\n  name: " ++ rbName
      ++ "\n  namespace: " ++ nspace
      ++ "\nsubjects:\n  - kind: ServiceAccount\n    name: " ++ saName
      ++ "\n    namespace: " ++ nspace
      ++ "\nroleRef:\n  kind: Role\n  name: " ++ roleName
      ++ "\n  apiGroup: rbac.authorization.k8s.io\n")]

/-- Guard under which the first pass emits a standalone PVC for a tier:
`tier.pvc && tier.pvc.enabled && (workloadType === 'Deployment' || !workloadType)`. -/
def pvcGuard (tier : Tier) : Bool :=
  (match tier.pvc with
   | some pvc => pvc.enabled
   | none => false)
  && (tier.workloadType == some "Deployment" || !strT tier.workloadType)

/-- Guard under which the first pass calls `generatePV`:
`tier.pv && tier.pv.enabled && tier.pv.type && tier.pv.type !== 'none'`. -/
def pvGuard (tier : Tier) : Bool :=
  match tier.pv with
  | some pv => pv.enabled && strT pv.type && pv.type != some "none"
  | none => false

/-- `tier.workloadType || 'Deployment'`, compared with `'StatefulSet'`
in the second pass. -/
def isSS (tier : Tier) : Bool :=
  orS tier.workloadType "Deployment" == "StatefulSet"

/-- Accumulated state of the first pass: emitted files plus the three
reference maps keyed by tier name. -/
structure P1State where
  files : Files
  cmRefs : List (String × CMOut)
  secretRefs : List (String × SecretOut)
  pvcRefs : List (String × PVCOut)

/-- One iteration of the first `tiers.forEach` (ConfigMaps, Secrets,
PVCs, PVs). -/
def pass1Step (nspace appName : String) (st : P1State) (tier : Tier) : P1State :=
  let st :=
    match renderConfigMap tier nspace appName with
    | some cm =>
      { st with files := putFile st.files cm.filename cm.content,
                cmRefs := putRef st.cmRefs tier.name cm }
    | none => st
  let st :=
    match renderSecret tier nspace appName with
    | some secret =>
      { st with files := putFile st.files secret.filename secret.content,
                secretRefs := putRef st.secretRefs tier.name secret }
    | none => st
  let st :=
    if pvcGuard tier then
      match generatePVC tier nspace appName with
      | some pvc =>
        { st with files := putFile st.files pvc.filename pvc.content,
                  pvcRefs := putRef st.pvcRefs tier.name pvc }
      | none => st
    else st
  if pvGuard tier then
    match generatePV tier appName with
    | some pv => { st with files := putFile st.files pv.filename pv.content }
    | none => st
  else st

/-- One iteration of the second `tiers.forEach` (workloads and services). -/
def pass2Step (nspace appName : String) (cmRefs : List (String × CMOut))
    (secretRefs : List (String × SecretOut)) (pvcRefs : List (String × PVCOut))
    (fs : Files) (tier : Tier) : Files :=
  let cmRef := getRef cmRefs tier.name
  let secretRef := getRef secretRefs tier.name
  let pvcRef := getRef pvcRefs tier.name
  let fs :=
    if isSS tier then
      let fs := putFile fs ("headless-service-" ++ tier.name ++ ".yaml")
        (generateHeadlessService tier nspace appName)
      putFile fs ("statefulset-" ++ tier.name ++ ".yaml")
        (generateStatefulSet tier nspace appName cmRef secretRef)
    else
      putFile fs ("deployment-" ++ tier.name ++ ".yaml")
        (generateDeployment tier nspace appName cmRef secretRef pvcRef)
  match generateService tier nspace appName with
  | some svcContent => putFile fs ("service-" ++ tier.name ++ ".yaml") svcContent
  | none => fs

/-- The validation error list accumulated at the top of
`generateKubernetesManifests` (in push order). -/
def validationErrors (payload : Payload) : List String :=
  (if payload.appName = "" then ["appName is required"] else [])
  ++ (if payload.nspace = "" then ["namespace is required"] else [])
  ++ (if payload.tiers.isEmpty then ["At least one tier is required"] else [])

/-- The thrown validation error: message, `statusCode` and `details`. -/
structure ValidationError where
  message : String
  statusCode : Nat
  details : List String
deriving DecidableEq, Repr

/-- The `files` accumulator right before the first pass: just the
optional Namespace document. -/
def initialFiles (payload : Payload) : Files :=
  if payload.createNamespace then
    putFile [] "namespace.yaml" (generateNamespace payload.nspace)
  else []

/-- The state after the first `tiers.forEach` (ConfigMaps, Secrets,
PVCs, PVs and the three reference maps). -/
def pass1 (payload : Payload) : P1State :=
  payload.tiers.foldl (pass1Step payload.nspace payload.appName)
    { files := initialFiles payload, cmRefs := [], secretRefs := [], pvcRefs := [] }

/-- The `files` accumulator after the second `tiers.forEach`
(workloads and services). -/
def pass2Files (payload : Payload) : Files :=
  payload.tiers.foldl
    (pass2Step payload.nspace payload.appName
      (pass1 payload).cmRefs (pass1 payload).secretRefs (pass1 payload).pvcRefs)
    (pass1 payload).files

/-- The `files` accumulator after the optional Ingress document. -/
def filesWithIngress (payload : Payload) : Files :=
  match generateIngress payload.tiers payload.nspace payload.appName with
  | some ingress => putFile (pass2Files payload) "ingress.yaml" ingress
  | none => pass2Files payload

/-- Everything `generateKubernetesManifests` does after validation has
passed: namespace file, two passes over the tiers, ingress, RBAC. -/
def genFiles (payload : Payload) : Files :=
  if payload.enableRBAC then
    (generateRBAC payload.nspace payload.appName).foldl
      (fun fs e => putFile fs e.1 e.2) (filesWithIngress payload)
  else filesWithIngress payload

/-- The source's `generateKubernetesManifests`: validate, then generate. -/
def generateKubernetesManifests (payload : Payload) : Except ValidationError Files :=
  let errors := validationErrors payload
  if errors.isEmpty then .ok (genFiles payload)
  else .error { message := "Validation failed", statusCode := 400, details := errors }

/-! Basic facts about strings, the file map and `joinLines`. -/

/-- Unfolding `String.append` to list append on the character data. -/
theorem data_append (a b : String) : (a ++ b).data = a.data ++ b.data :=
  String.data_append a b

/-- The pattern `pat` occurs somewhere inside `s`. -/
def strContains (s pat : String) : Prop :=
  pat.data <:+: s.data

instance (s pat : String) : Decidable (strContains s pat) := by
  unfold strContains
  infer_instance

theorem strContains_refl (s : String) : strContains s s :=
  ⟨[], [], by simp⟩

theorem strContains_append_left (a b pat : String) (h : strContains a pat) :
    strContains (a ++ b) pat := by
  obtain ⟨s, t, e⟩ := h
  exact ⟨s, t ++ b.data, by rw [data_append, ← e]; simp [List.append_assoc]⟩

theorem strContains_append_right (a b pat : String) (h : strContains b pat) :
    strContains (a ++ b) pat := by
  obtain ⟨s, t, e⟩ := h
  exact ⟨a.data ++ s, t, by rw [data_append, ← e]; simp [List.append_assoc]⟩

theorem strContains_trans {s x pat : String} (h1 : strContains x pat)
    (h2 : strContains s x) : strContains s pat :=
  h1.trans h2

/-- If the literal `L` splits as `Lp ++ Ls`, then the pattern `Ls ++ v`
occurs in `(A ++ L) ++ v`. -/
theorem strContains_suffix_var (A L Lp Ls v : String) (hL : L = Lp ++ Ls) :
    strContains ((A ++ L) ++ v) (Ls ++ v) := by
  subst hL
  exact ⟨(A ++ Lp).data, [], by simp [data_append, List.append_assoc]⟩

/-- Variant of `strContains_suffix_var` with no leading segment. -/
theorem strContains_head_var (L Lp Ls v : String) (hL : L = Lp ++ Ls) :
    strContains (L ++ v) (Ls ++ v) := by
  subst hL
  exact ⟨Lp.data, [], by simp [data_append, List.append_assoc]⟩

theorem str_eq_of_data {a b : String} (h : a.data = b.data) : a = b := by
  cases a
  cases b
  exact congrArg String.mk h

theorem str_ne_of_data_ne {a b : String} (h : a.data ≠ b.data) : a ≠ b :=
  fun e => h (congrArg String.data e)

/-- Two strings with a fixed differing character cannot be equal even
after appending arbitrary suffixes to the first. -/
theorem append_ne_left_char (p s q : String) (i : Nat) (c d : Char)
    (hc : p.data[i]? = some c) (hd : q.data[i]? = some d) (hne : c ≠ d) :
    p ++ s ≠ q := by
  intro e
  apply hne
  have hip : i < p.data.length := by
    have := List.getElem?_eq_some.mp hc
    exact this.1
  have h1 : (p ++ s).data[i]? = some c := by
    rw [data_append, List.getElem?_append_left hip]
    exact hc
  rw [e, hd] at h1
  exact (Option.some.inj h1).symm

/-- Two appended strings with differing characters in their (constant)
prefixes cannot be equal. -/
theorem append_ne_append_char (p s q t : String) (i : Nat) (c d : Char)
    (hc : p.data[i]? = some c) (hd : q.data[i]? = some d) (hne : c ≠ d) :
    p ++ s ≠ q ++ t := by
  apply append_ne_left_char p s (q ++ t) i c d hc _ hne
  have hiq : i < q.data.length := by
    have := List.getElem?_eq_some.mp hd
    exact this.1
  rw [data_append, List.getElem?_append_left hiq]
  exact hd

/-- Filenames built from the same prefix and suffix are equal only for
equal middles (used to recover tier-name equality from key equality). -/
theorem append_mid_inj {p s n m : String} (h : (p ++ n) ++ s = (p ++ m) ++ s) :
    n = m := by
  apply str_eq_of_data
  have hd : p.data ++ (n.data ++ s.data) = p.data ++ (m.data ++ s.data) := by
    have := congrArg String.data h
    simpa [data_append, List.append_assoc] using this
  have h2 : n.data ++ s.data = m.data ++ s.data := List.append_cancel_left hd
  exact List.append_cancel_right h2

theorem getFile_putFile_self (fs : Files) (k v : String) :
    getFile (putFile fs k v) k = some v := by
  induction fs with
  | nil => simp [putFile, getFile]
  | cons e rest ih =>
    by_cases h : e.1 = k <;> simp [putFile, getFile, h, ih]

theorem getFile_putFile_ne (fs : Files) (k k' v : String) (h : k' ≠ k) :
    getFile (putFile fs k v) k' = getFile fs k' := by
  have hk : ¬ k = k' := fun hh => h hh.symm
  induction fs with
  | nil => simp [putFile, getFile, hk]
  | cons e rest ih =>
    by_cases he : e.1 = k
    · simp [putFile, getFile, he, hk]
    · by_cases he' : e.1 = k' <;> simp [putFile, getFile, he, he', ih, h]

theorem mem_keys_putFile (fs : Files) (k k' v : String) :
    k' ∈ keys (putFile fs k v) ↔ k' = k ∨ k' ∈ keys fs := by
  induction fs with
  | nil => simp [putFile, keys]
  | cons e rest ih =>
    by_cases he : e.1 = k
    · subst he
      simp [putFile, keys]
    · simp [putFile, keys, he] at ih ⊢
      tauto

theorem keys_putFile_nodup (fs : Files) (k v : String)
    (h : (keys fs).Nodup) : (keys (putFile fs k v)).Nodup := by
  induction fs with
  | nil => simp [putFile, keys]
  | cons e rest ih =>
    simp only [keys, List.map_cons, List.nodup_cons] at h
    by_cases he : e.1 = k
    · subst he
      simpa [putFile, keys, List.nodup_cons] using h
    · have := ih h.2
      simp only [putFile, he, if_false, keys, List.map_cons, List.nodup_cons]
      refine ⟨?_, this⟩
      intro hmem
      rcases (mem_keys_putFile rest k e.1 v).mp hmem with h1 | h2
      · exact he h1
      · exact h.1 h2

theorem strContains_joinLines (l : List String) (x : String) (hx : x ∈ l) :
    strContains (joinLines l) x := by
  induction l with
  | nil => cases hx
  | cons a rest ih =>
    rcases List.mem_cons.mp hx with h | h
    · subst h
      cases rest with
      | nil => exact strContains_refl x
      | cons y ys =>
        exact strContains_append_left _ _ _ (strContains_append_left _ _ _ (strContains_refl x))
    · cases rest with
      | nil => cases h
      | cons y ys =>
        exact strContains_append_right _ _ _ (ih h)

/-! Decomposition of the pass steps into their sequential stages, for
structured reasoning; each equality is definitional. -/

/-- The ConfigMap stage of `pass1Step`. -/
def p1cmStep (nspace appName : String) (st : P1State) (tier : Tier) : P1State :=
  match renderConfigMap tier nspace appName with
  | some cm =>
    { st with files := putFile st.files cm.filename cm.content,
              cmRefs := putRef st.cmRefs tier.name cm }
  | none => st

/-- The Secret stage of `pass1Step`. -/
def p1secretStep (nspace appName : String) (st : P1State) (tier : Tier) : P1State :=
  match renderSecret tier nspace appName with
  | some secret =>
    { st with files := putFile st.files secret.filename secret.content,
              secretRefs := putRef st.secretRefs tier.name secret }
  | none => st

/-- The PVC stage of `pass1Step`. -/
def p1pvcStep (nspace appName : String) (st : P1State) (tier : Tier) : P1State :=
  if pvcGuard tier then
    match generatePVC tier nspace appName with
    | some pvc =>
      { st with files := putFile st.files pvc.filename pvc.content,
                pvcRefs := putRef st.pvcRefs tier.name pvc }
    | none => st
  else st

/-- The PV stage of `pass1Step`. -/
def p1pvStep (nspace appName : String) (st : P1State) (tier : Tier) : P1State :=
  if pvGuard tier then
    match generatePV tier appName with
    | some pv => { st with files := putFile st.files pv.filename pv.content }
    | none => st
  else st

theorem pass1Step_eq (nspace appName : String) (st : P1State) (tier : Tier) :
    pass1Step nspace appName st tier =
      p1pvStep nspace appName
        (p1pvcStep nspace appName
          (p1secretStep nspace appName
            (p1cmStep nspace appName st tier) tier) tier) tier := rfl

/-- The workload stage of `pass2Step`. -/
def p2workStep (nspace appName : String) (cmRefs : List (String × CMOut))
    (secretRefs : List (String × SecretOut)) (pvcRefs : List (String × PVCOut))
    (fs : Files) (tier : Tier) : Files :=
  if isSS tier then
    putFile
      (putFile fs ("headless-service-" ++ tier.name ++ ".yaml")
        (generateHeadlessService tier nspace appName))
      ("statefulset-" ++ tier.name ++ ".yaml")
      (generateStatefulSet tier nspace appName (getRef cmRefs tier.name)
        (getRef secretRefs tier.name))
  else
    putFile fs ("deployment-" ++ tier.name ++ ".yaml")
      (generateDeployment tier nspace appName (getRef cmRefs tier.name)
        (getRef secretRefs tier.name) (getRef pvcRefs tier.name))

/-- The Service stage of `pass2Step`. -/
def p2svcStep (nspace appName : String) (fs : Files) (tier : Tier) : Files :=
  match generateService tier nspace appName with
  | some svcContent => putFile fs ("service-" ++ tier.name ++ ".yaml") svcContent
  | none => fs

theorem pass2Step_eq (nspace appName : String) (cmRefs : List (String × CMOut))
    (secretRefs : List (String × SecretOut)) (pvcRefs : List (String × PVCOut))
    (fs : Files) (tier : Tier) :
    pass2Step nspace appName cmRefs secretRefs pvcRefs fs tier =
      p2svcStep nspace appName
        (p2workStep nspace appName cmRefs secretRefs pvcRefs fs tier) tier := rfl

/-! Filenames produced by the leaf renderers. -/

theorem renderConfigMap_filename {tier : Tier} {nspace appName : String} {cm : CMOut}
    (h : renderConfigMap tier nspace appName = some cm) :
    cm.filename = "configmap-" ++ tier.name ++ ".yaml" := by
  unfold renderConfigMap at h
  split at h
  · cases h
  · exact (Option.some.inj h) ▸ rfl

theorem renderSecret_filename {tier : Tier} {nspace appName : String} {secret : SecretOut}
    (h : renderSecret tier nspace appName = some secret) :
    secret.filename = "secret-" ++ tier.name ++ ".yaml" := by
  unfold renderSecret at h
  split at h
  · cases h
  · exact (Option.some.inj h) ▸ rfl

theorem generatePVC_filename {tier : Tier} {nspace appName : String} {pvc : PVCOut}
    (h : generatePVC tier nspace appName = some pvc) :
    pvc.filename = "pvc-" ++ tier.name ++ ".yaml" := by
  unfold generatePVC at h
  split at h
  · cases h
  · split at h
    · cases h
    · exact (Option.some.inj h) ▸ rfl

theorem generatePV_filename {tier : Tier} {appName : String} {pv : PVOut}
    (h : generatePV tier appName = some pv) :
    pv.filename = "pv-" ++ tier.name ++ ".yaml" := by
  unfold generatePV at h
  split at h
  · cases h
  · split at h
    · cases h
    · split at h
      · cases h
      · split at h
        · cases h
        · exact (Option.some.inj h) ▸ rfl

/-! Which keys each pass can contribute for a given tier. -/

/-- Keys the first pass may add while processing `tier`. -/
def pass1Origin (nspace appName : String) (tier : Tier) (k : String) : Prop :=
  ((renderConfigMap tier nspace appName).isSome = true
      ∧ k = "configmap-" ++ tier.name ++ ".yaml")
  ∨ ((renderSecret tier nspace appName).isSome = true
      ∧ k = "secret-" ++ tier.name ++ ".yaml")
  ∨ (pvcGuard tier = true ∧ k = "pvc-" ++ tier.name ++ ".yaml")
  ∨ (pvGuard tier = true ∧ (generatePV tier appName).isSome = true
      ∧ k = "pv-" ++ tier.name ++ ".yaml")

/-- Keys the second pass may add while processing `tier`. -/
def pass2Origin (tier : Tier) (k : String) : Prop :=
  (isSS tier = true
      ∧ (k = "headless-service-" ++ tier.name ++ ".yaml"
         ∨ k = "statefulset-" ++ tier.name ++ ".yaml"))
  ∨ (isSS tier = false ∧ k = "deployment-" ++ tier.name ++ ".yaml")
  ∨ (tier.service.isSome = true ∧ k = "service-" ++ tier.name ++ ".yaml")

theorem generateService_isSome (tier : Tier) (nspace appName : String) :
    (generateService tier nspace appName).isSome = tier.service.isSome := by
  unfold generateService
  cases tier.service <;> simp

theorem mem_keys_p1cmStep {nspace appName : String} {st : P1State} {tier : Tier}
    {k : String} (hk : k ∈ keys (p1cmStep nspace appName st tier).files) :
    k ∈ keys st.files
      ∨ ((renderConfigMap tier nspace appName).isSome = true
          ∧ k = "configmap-" ++ tier.name ++ ".yaml") := by
  unfold p1cmStep at hk
  split at hk
  next cm heq =>
    rcases (mem_keys_putFile _ _ _ _).mp hk with h | h
    · exact Or.inr ⟨by simp [heq], h.trans (renderConfigMap_filename heq)⟩
    · exact Or.inl h
  next => exact Or.inl hk

theorem mem_keys_p1secretStep {nspace appName : String} {st : P1State} {tier : Tier}
    {k : String} (hk : k ∈ keys (p1secretStep nspace appName st tier).files) :
    k ∈ keys st.files
      ∨ ((renderSecret tier nspace appName).isSome = true
          ∧ k = "secret-" ++ tier.name ++ ".yaml") := by
  unfold p1secretStep at hk
  split at hk
  next secret heq =>
    rcases (mem_keys_putFile _ _ _ _).mp hk with h | h
    · exact Or.inr ⟨by simp [heq], h.trans (renderSecret_filename heq)⟩
    · exact Or.inl h
  next => exact Or.inl hk

theorem mem_keys_p1pvcStep {nspace appName : String} {st : P1State} {tier : Tier}
    {k : String} (hk : k ∈ keys (p1pvcStep nspace appName st tier).files) :
    k ∈ keys st.files
      ∨ (pvcGuard tier = true ∧ k = "pvc-" ++ tier.name ++ ".yaml") := by
  unfold p1pvcStep at hk
  split at hk
  next hg =>
    split at hk
    next pvc heq =>
      rcases (mem_keys_putFile _ _ _ _).mp hk with h | h
      · exact Or.inr ⟨hg, h.trans (generatePVC_filename heq)⟩
      · exact Or.inl h
    next => exact Or.inl hk
  next => exact Or.inl hk

theorem mem_keys_p1pvStep {nspace appName : String} {st : P1State} {tier : Tier}
    {k : String} (hk : k ∈ keys (p1pvStep nspace appName st tier).files) :
    k ∈ keys st.files
      ∨ (pvGuard tier = true ∧ (generatePV tier appName).isSome = true
          ∧ k = "pv-" ++ tier.name ++ ".yaml") := by
  unfold p1pvStep at hk
  split at hk
  next hg =>
    split at hk
    next pv heq =>
      rcases (mem_keys_putFile _ _ _ _).mp hk with h | h
      · exact Or.inr ⟨hg, by simp [heq], h.trans (generatePV_filename heq)⟩
      · exact Or.inl h
    next => exact Or.inl hk
  next => exact Or.inl hk

theorem mem_keys_pass1Step {nspace appName : String} {st : P1State} {tier : Tier}
    {k : String} (hk : k ∈ keys (pass1Step nspace appName st tier).files) :
    k ∈ keys st.files ∨ pass1Origin nspace appName tier k := by
  rw [pass1Step_eq] at hk
  rcases mem_keys_p1pvStep hk with hk | h
  · rcases mem_keys_p1pvcStep hk with hk | h
    · rcases mem_keys_p1secretStep hk with hk | h
      · rcases mem_keys_p1cmStep hk with hk | h
        · exact Or.inl hk
        · exact Or.inr (Or.inl h)
      · exact Or.inr (Or.inr (Or.inl h))
    · exact Or.inr (Or.inr (Or.inr (Or.inl h)))
  · exact Or.inr (Or.inr (Or.inr (Or.inr h)))

theorem mem_keys_pass2Step {nspace appName : String} {cmRefs : List (String × CMOut)}
    {secretRefs : List (String × SecretOut)} {pvcRefs : List (String × PVCOut)}
    {fs : Files} {tier : Tier} {k : String}
    (hk : k ∈ keys (pass2Step nspace appName cmRefs secretRefs pvcRefs fs tier)) :
    k ∈ keys fs ∨ pass2Origin tier k := by
  rw [pass2Step_eq] at hk
  unfold p2svcStep at hk
  have hwork : k ∈ keys (p2workStep nspace appName cmRefs secretRefs pvcRefs fs tier) →
      k ∈ keys fs ∨ pass2Origin tier k := by
    intro hw
    unfold p2workStep at hw
    split at hw
    next hss =>
      rcases (mem_keys_putFile _ _ _ _).mp hw with h | hw
      · exact Or.inr (Or.inl ⟨hss, Or.inr h⟩)
      · rcases (mem_keys_putFile _ _ _ _).mp hw with h | hw
        · exact Or.inr (Or.inl ⟨hss, Or.inl h⟩)
        · exact Or.inl hw
    next hss =>
      rcases (mem_keys_putFile _ _ _ _).mp hw with h | hw
      · exact Or.inr (Or.inr (Or.inl ⟨Bool.not_eq_true _ ▸ hss, h⟩))
      · exact Or.inl hw
  split at hk
  next svcContent heq =>
    rcases (mem_keys_putFile _ _ _ _).mp hk with h | hk
    · refine Or.inr (Or.inr (Or.inr ⟨?_, h⟩))
      rw [← generateService_isSome tier nspace appName, heq]
      rfl
    · exact hwork hk
  next => exact hwork hk

theorem mem_keys_putFile_mono {fs : Files} {k' v k : String} (hk : k ∈ keys fs) :
    k ∈ keys (putFile fs k' v) :=
  (mem_keys_putFile fs k' k v).mpr (Or.inr hk)

theorem self_mem_keys_putFile (fs : Files) (k v : String) :
    k ∈ keys (putFile fs k v) :=
  (mem_keys_putFile fs k k v).mpr (Or.inl rfl)

theorem mem_keys_pass1Step_mono {nspace appName : String} {st : P1State} {tier : Tier}
    {k : String} (hk : k ∈ keys st.files) :
    k ∈ keys (pass1Step nspace appName st tier).files := by
  rw [pass1Step_eq]
  have h1 : k ∈ keys (p1cmStep nspace appName st tier).files := by
    unfold p1cmStep
    split
    · exact mem_keys_putFile_mono hk
    · exact hk
  have h2 : k ∈ keys (p1secretStep nspace appName (p1cmStep nspace appName st tier) tier).files := by
    unfold p1secretStep
    split
    · exact mem_keys_putFile_mono h1
    · exact h1
  have h3 : k ∈ keys (p1pvcStep nspace appName
      (p1secretStep nspace appName (p1cmStep nspace appName st tier) tier) tier).files := by
    unfold p1pvcStep
    split
    · split
      · exact mem_keys_putFile_mono h2
      · exact h2
    · exact h2
  unfold p1pvStep
  split
  · split
    · exact mem_keys_putFile_mono h3
    · exact h3
  · exact h3

theorem mem_keys_pass2Step_mono {nspace appName : String} {cmRefs : List (String × CMOut)}
    {secretRefs : List (String × SecretOut)} {pvcRefs : List (String × PVCOut)}
    {fs : Files} {tier : Tier} {k : String} (hk : k ∈ keys fs) :
    k ∈ keys (pass2Step nspace appName cmRefs secretRefs pvcRefs fs tier) := by
  rw [pass2Step_eq]
  have h1 : k ∈ keys (p2workStep nspace appName cmRefs secretRefs pvcRefs fs tier) := by
    unfold p2workStep
    split
    · exact mem_keys_putFile_mono (mem_keys_putFile_mono hk)
    · exact mem_keys_putFile_mono hk
  unfold p2svcStep
  split
  · exact mem_keys_putFile_mono h1
  · exact h1

theorem mem_keys_pass1_fold {nspace appName : String} {l : List Tier} {st : P1State}
    {k : String} (hk : k ∈ keys ((l.foldl (pass1Step nspace appName) st)).files) :
    k ∈ keys st.files ∨ ∃ t ∈ l, pass1Origin nspace appName t k := by
  induction l generalizing st with
  | nil => exact Or.inl hk
  | cons t ts ih =>
    simp only [List.foldl_cons] at hk
    rcases ih hk with hk' | ⟨t', ht', h⟩
    · rcases mem_keys_pass1Step hk' with h | h
      · exact Or.inl h
      · exact Or.inr ⟨t, List.mem_cons_self t ts, h⟩
    · exact Or.inr ⟨t', List.mem_cons_of_mem _ ht', h⟩

theorem mem_keys_pass1_fold_mono {nspace appName : String} {l : List Tier} {st : P1State}
    {k : String} (hk : k ∈ keys st.files) :
    k ∈ keys ((l.foldl (pass1Step nspace appName) st)).files := by
  induction l generalizing st with
  | nil => exact hk
  | cons t ts ih =>
    simp only [List.foldl_cons]
    exact ih (mem_keys_pass1Step_mono hk)

theorem mem_keys_pass2_fold {nspace appName : String} {cmRefs : List (String × CMOut)}
    {secretRefs : List (String × SecretOut)} {pvcRefs : List (String × PVCOut)}
    {l : List Tier} {fs : Files} {k : String}
    (hk : k ∈ keys (l.foldl (pass2Step nspace appName cmRefs secretRefs pvcRefs) fs)) :
    k ∈ keys fs ∨ ∃ t ∈ l, pass2Origin t k := by
  induction l generalizing fs with
  | nil => exact Or.inl hk
  | cons t ts ih =>
    simp only [List.foldl_cons] at hk
    rcases ih hk with hk' | ⟨t', ht', h⟩
    · rcases mem_keys_pass2Step hk' with h | h
      · exact Or.inl h
      · exact Or.inr ⟨t, List.mem_cons_self t ts, h⟩
    · exact Or.inr ⟨t', List.mem_cons_of_mem _ ht', h⟩

theorem mem_keys_pass2_fold_mono {nspace appName : String} {cmRefs : List (String × CMOut)}
    {secretRefs : List (String × SecretOut)} {pvcRefs : List (String × PVCOut)}
    {l : List Tier} {fs : Files} {k : String} (hk : k ∈ keys fs) :
    k ∈ keys (l.foldl (pass2Step nspace appName cmRefs secretRefs pvcRefs) fs) := by
  induction l generalizing fs with
  | nil => exact hk
  | cons t ts ih =>
    simp only [List.foldl_cons]
    exact ih (mem_keys_pass2Step_mono hk)

theorem pass2Step_adds_service {nspace appName : String} {cmRefs : List (String × CMOut)}
    {secretRefs : List (String × SecretOut)} {pvcRefs : List (String × PVCOut)}
    {fs : Files} {tier : Tier} (hsvc : tier.service.isSome = true) :
    "service-" ++ tier.name ++ ".yaml"
      ∈ keys (pass2Step nspace appName cmRefs secretRefs pvcRefs fs tier) := by
  rw [pass2Step_eq]
  unfold p2svcStep
  split
  · exact self_mem_keys_putFile _ _ _
  next heq =>
    rw [← generateService_isSome tier nspace appName, heq] at hsvc
    cases hsvc

theorem pass2Step_adds_workload {nspace appName : String} {cmRefs : List (String × CMOut)}
    {secretRefs : List (String × SecretOut)} {pvcRefs : List (String × PVCOut)}
    {fs : Files} {tier : Tier} :
    (if isSS tier then "statefulset-" ++ tier.name ++ ".yaml"
     else "deployment-" ++ tier.name ++ ".yaml")
      ∈ keys (pass2Step nspace appName cmRefs secretRefs pvcRefs fs tier) := by
  rw [pass2Step_eq]
  have h1 : (if isSS tier then "statefulset-" ++ tier.name ++ ".yaml"
      else "deployment-" ++ tier.name ++ ".yaml")
      ∈ keys (p2workStep nspace appName cmRefs secretRefs pvcRefs fs tier) := by
    unfold p2workStep
    split
    next h => exact self_mem_keys_putFile _ _ _
    next h => exact self_mem_keys_putFile _ _ _
  unfold p2svcStep
  split
  · exact mem_keys_putFile_mono h1
  · exact h1

theorem pass2_fold_adds {nspace appName : String} {cmRefs : List (String × CMOut)}
    {secretRefs : List (String × SecretOut)} {pvcRefs : List (String × PVCOut)}
    {l : List Tier} {fs : Files} {t : Tier} (ht : t ∈ l) {k : String}
    (hstep : ∀ fs' : Files,
      k ∈ keys (pass2Step nspace appName cmRefs secretRefs pvcRefs fs' t)) :
    k ∈ keys (l.foldl (pass2Step nspace appName cmRefs secretRefs pvcRefs) fs) := by
  induction l generalizing fs with
  | nil => cases ht
  | cons a ts ih =>
    simp only [List.foldl_cons]
    rcases List.mem_cons.mp ht with h | h
    · subst h
      exact mem_keys_pass2_fold_mono (hstep fs)
    · exact ih h

theorem pass1Step_adds_pv {nspace appName : String} {st : P1State} {tier : Tier}
    {out : PVOut} (hg : pvGuard tier = true) (hpv : generatePV tier appName = some out) :
    "pv-" ++ tier.name ++ ".yaml" ∈ keys (pass1Step nspace appName st tier).files := by
  rw [pass1Step_eq]
  unfold p1pvStep
  rw [hg, hpv]
  simp only [if_true]
  rw [← generatePV_filename hpv]
  exact self_mem_keys_putFile _ _ _

theorem pass1_fold_adds {nspace appName : String} {l : List Tier} {st : P1State}
    {t : Tier} (ht : t ∈ l) {k : String}
    (hstep : ∀ st' : P1State, k ∈ keys (pass1Step nspace appName st' t).files) :
    k ∈ keys ((l.foldl (pass1Step nspace appName) st)).files := by
  induction l generalizing st with
  | nil => cases ht
  | cons a ts ih =>
    simp only [List.foldl_cons]
    rcases List.mem_cons.mp ht with h | h
    · subst h
      exact mem_keys_pass1_fold_mono (hstep st)
    · exact ih h

theorem mem_keys_initialFiles {payload : Payload} {k : String}
    (hk : k ∈ keys (initialFiles payload)) :
    payload.createNamespace = true ∧ k = "namespace.yaml" := by
  unfold initialFiles at hk
  split at hk
  next h =>
    refine ⟨h, ?_⟩
    rcases (mem_keys_putFile _ _ _ _).mp hk with h' | h'
    · exact h'
    · cases h'
  next => cases hk

/-- Every key of the final mapping comes from the Namespace stage, one
of the two passes over some tier, the Ingress stage, or the RBAC stage. -/
theorem mem_keys_genFiles {payload : Payload} {k : String}
    (hk : k ∈ keys (genFiles payload)) :
    (payload.createNamespace = true ∧ k = "namespace.yaml")
    ∨ (∃ t ∈ payload.tiers,
        pass1Origin payload.nspace payload.appName t k ∨ pass2Origin t k)
    ∨ ((generateIngress payload.tiers payload.nspace payload.appName).isSome = true
        ∧ k = "ingress.yaml")
    ∨ (payload.enableRBAC = true
        ∧ (k = "serviceaccount.yaml" ∨ k = "role.yaml" ∨ k = "rolebinding.yaml")) := by
  have hwi : k ∈ keys (filesWithIngress payload) →
      (payload.createNamespace = true ∧ k = "namespace.yaml")
      ∨ (∃ t ∈ payload.tiers,
          pass1Origin payload.nspace payload.appName t k ∨ pass2Origin t k)
      ∨ ((generateIngress payload.tiers payload.nspace payload.appName).isSome = true
          ∧ k = "ingress.yaml") := by
    intro hw
    have hp2 : k ∈ keys (pass2Files payload) →
        (payload.createNamespace = true ∧ k = "namespace.yaml")
        ∨ (∃ t ∈ payload.tiers,
            pass1Origin payload.nspace payload.appName t k ∨ pass2Origin t k) := by
      intro hp
      unfold pass2Files at hp
      rcases mem_keys_pass2_fold hp with hp | ⟨t, ht, h⟩
      · unfold pass1 at hp
        rcases mem_keys_pass1_fold hp with hp | ⟨t, ht, h⟩
        · exact Or.inl (mem_keys_initialFiles hp)
        · exact Or.inr ⟨t, ht, Or.inl h⟩
      · exact Or.inr ⟨t, ht, Or.inr h⟩
    unfold filesWithIngress at hw
    split at hw
    next heq =>
      rcases (mem_keys_putFile _ _ _ _).mp hw with h | hw
      · exact Or.inr (Or.inr ⟨by simp [heq], h⟩)
      · rcases hp2 hw with h | h
        · exact Or.inl h
        · exact Or.inr (Or.inl h)
    next =>
      rcases hp2 hw with h | h
      · exact Or.inl h
      · exact Or.inr (Or.inl h)
  unfold genFiles at hk
  split at hk
  next hrbac =>
    simp only [generateRBAC, List.foldl_cons, List.foldl_nil] at hk
    rcases (mem_keys_putFile _ _ _ _).mp hk with h | hk
    · exact Or.inr (Or.inr (Or.inr ⟨hrbac, Or.inr (Or.inr h)⟩))
    · rcases (mem_keys_putFile _ _ _ _).mp hk with h | hk
      · exact Or.inr (Or.inr (Or.inr ⟨hrbac, Or.inr (Or.inl h)⟩))
      · rcases (mem_keys_putFile _ _ _ _).mp hk with h | hk
        · exact Or.inr (Or.inr (Or.inr ⟨hrbac, Or.inl h⟩))
        · rcases hwi hk with h | h | h
          · exact Or.inl h
          · exact Or.inr (Or.inl h)
          · exact Or.inr (Or.inr (Or.inl h))
  next =>
    rcases hwi hk with h | h | h
    · exact Or.inl h
    · exact Or.inr (Or.inl h)
    · exact Or.inr (Or.inr (Or.inl h))

/-- Keys already present survive to the final mapping. -/
theorem mem_keys_genFiles_of_pass2 {payload : Payload} {k : String}
    (hk : k ∈ keys (pass2Files payload)) : k ∈ keys (genFiles payload) := by
  have hwi : k ∈ keys (filesWithIngress payload) := by
    unfold filesWithIngress
    split
    · exact mem_keys_putFile_mono hk
    · exact hk
  unfold genFiles
  split
  · simp only [generateRBAC, List.foldl_cons, List.foldl_nil]
    exact mem_keys_putFile_mono (mem_keys_putFile_mono (mem_keys_putFile_mono hwi))
  · exact hwi

/-- Reads of keys the Ingress/RBAC stages do not write pass through to
the state after the second pass. -/
theorem getFile_genFiles_stable {payload : Payload} {k : String}
    (h1 : k ≠ "ingress.yaml") (h2 : k ≠ "serviceaccount.yaml")
    (h3 : k ≠ "role.yaml") (h4 : k ≠ "rolebinding.yaml") :
    getFile (genFiles payload) k = getFile (pass2Files payload) k := by
  have hwi : getFile (filesWithIngress payload) k = getFile (pass2Files payload) k := by
    unfold filesWithIngress
    split
    · exact getFile_putFile_ne _ _ _ _ h1
    · rfl
  unfold genFiles
  split
  · simp only [generateRBAC, List.foldl_cons, List.foldl_nil]
    rw [getFile_putFile_ne _ _ _ _ h4, getFile_putFile_ne _ _ _ _ h3,
      getFile_putFile_ne _ _ _ _ h2]
    exact hwi
  · exact hwi

theorem mem_keys_of_getFile {fs : Files} {k v : String}
    (h : getFile fs k = some v) : k ∈ keys fs := by
  induction fs with
  | nil => cases h
  | cons e rest ih =>
    by_cases he : e.1 = k
    · simp [keys, he]
    · simp only [getFile, he, if_false] at h
      exact List.mem_cons_of_mem _ (ih h)

theorem keys_pass1Step_nodup {nspace appName : String} {st : P1State} {tier : Tier}
    (h : (keys st.files).Nodup) :
    (keys (pass1Step nspace appName st tier).files).Nodup := by
  rw [pass1Step_eq]
  have h1 : (keys (p1cmStep nspace appName st tier).files).Nodup := by
    unfold p1cmStep
    split
    · exact keys_putFile_nodup _ _ _ h
    · exact h
  have h2 : (keys (p1secretStep nspace appName (p1cmStep nspace appName st tier) tier).files).Nodup := by
    unfold p1secretStep
    split
    · exact keys_putFile_nodup _ _ _ h1
    · exact h1
  have h3 : (keys (p1pvcStep nspace appName
      (p1secretStep nspace appName (p1cmStep nspace appName st tier) tier) tier).files).Nodup := by
    unfold p1pvcStep
    split
    · split
      · exact keys_putFile_nodup _ _ _ h2
      · exact h2
    · exact h2
  unfold p1pvStep
  split
  · split
    · exact keys_putFile_nodup _ _ _ h3
    · exact h3
  · exact h3

theorem keys_pass2Step_nodup {nspace appName : String} {cmRefs : List (String × CMOut)}
    {secretRefs : List (String × SecretOut)} {pvcRefs : List (String × PVCOut)}
    {fs : Files} {tier : Tier} (h : (keys fs).Nodup) :
    (keys (pass2Step nspace appName cmRefs secretRefs pvcRefs fs tier)).Nodup := by
  rw [pass2Step_eq]
  have h1 : (keys (p2workStep nspace appName cmRefs secretRefs pvcRefs fs tier)).Nodup := by
    unfold p2workStep
    split
    · exact keys_putFile_nodup _ _ _ (keys_putFile_nodup _ _ _ h)
    · exact keys_putFile_nodup _ _ _ h
  unfold p2svcStep
  split
  · exact keys_putFile_nodup _ _ _ h1
  · exact h1

theorem keys_pass1_fold_nodup {nspace appName : String} {l : List Tier} {st : P1State}
    (h : (keys st.files).Nodup) :
    (keys ((l.foldl (pass1Step nspace appName) st)).files).Nodup := by
  induction l generalizing st with
  | nil => exact h
  | cons t ts ih =>
    simp only [List.foldl_cons]
    exact ih (keys_pass1Step_nodup h)

theorem keys_pass2_fold_nodup {nspace appName : String} {cmRefs : List (String × CMOut)}
    {secretRefs : List (String × SecretOut)} {pvcRefs : List (String × PVCOut)}
    {l : List Tier} {fs : Files} (h : (keys fs).Nodup) :
    (keys (l.foldl (pass2Step nspace appName cmRefs secretRefs pvcRefs) fs)).Nodup := by
  induction l generalizing fs with
  | nil => exact h
  | cons t ts ih =>
    simp only [List.foldl_cons]
    exact ih (keys_pass2Step_nodup h)

/-- The generator never produces two entries with the same filename:
`putFile` overwrites in place. -/
theorem keys_genFiles_nodup (payload : Payload) :
    (keys (genFiles payload)).Nodup := by
  have h0 : (keys (initialFiles payload)).Nodup := by
    unfold initialFiles
    split
    · exact keys_putFile_nodup _ _ _ (by simp [keys])
    · simp [keys]
  have h1 : (keys (pass1 payload).files).Nodup := by
    unfold pass1
    exact keys_pass1_fold_nodup h0
  have h2 : (keys (pass2Files payload)).Nodup := by
    unfold pass2Files
    exact keys_pass2_fold_nodup h1
  have h3 : (keys (filesWithIngress payload)).Nodup := by
    unfold filesWithIngress
    split
    · exact keys_putFile_nodup _ _ _ h2
    · exact h2
  unfold genFiles
  split
  · simp only [generateRBAC, List.foldl_cons, List.foldl_nil]
    exact keys_putFile_nodup _ _ _ (keys_putFile_nodup _ _ _ (keys_putFile_nodup _ _ _ h3))
  · exact h3

/-! The claims. -/

theorem mem_validationErrors_appName (p : Payload) :
    "appName is required" ∈ validationErrors p ↔ p.appName = "" := by
  unfold validationErrors
  by_cases ha : p.appName = "" <;> by_cases hn : p.nspace = "" <;>
    by_cases ht : p.tiers.isEmpty = true <;> simp [ha, hn, ht]

theorem mem_validationErrors_nspace (p : Payload) :
    "namespace is required" ∈ validationErrors p ↔ p.nspace = "" := by
  unfold validationErrors
  by_cases ha : p.appName = "" <;> by_cases hn : p.nspace = "" <;>
    by_cases ht : p.tiers.isEmpty = true <;> simp [ha, hn, ht]

theorem mem_validationErrors_tiers (p : Payload) :
    "At least one tier is required" ∈ validationErrors p ↔ p.tiers = [] := by
  rw [← List.isEmpty_iff]
  unfold validationErrors
  by_cases ha : p.appName = "" <;> by_cases hn : p.nspace = "" <;>
    by_cases ht : p.tiers.isEmpty = true <;> simp [ha, hn, ht]

/-- C1: a request missing any subset of appName / namespace / non-empty
tiers fails with the `Validation failed` error carrying the full
violation list — each of the three messages is present exactly when the
corresponding field is missing — and no file mapping is produced (the
result is `Except.error`, so the compiler body never runs). -/
theorem c1_validation_completeness (p : Payload)
    (h : p.appName = "" ∨ p.nspace = "" ∨ p.tiers = []) :
    generateKubernetesManifests p =
      .error { message := "Validation failed", statusCode := 400,
               details := validationErrors p }
    ∧ (p.appName = "" ↔ "appName is required" ∈ validationErrors p)
    ∧ (p.nspace = "" ↔ "namespace is required" ∈ validationErrors p)
    ∧ (p.tiers = [] ↔ "At least one tier is required" ∈ validationErrors p) := by
  have hne : validationErrors p ≠ [] := by
    unfold validationErrors
    rcases h with h | h | h <;> simp [h, List.isEmpty_iff]
  refine ⟨?_, (mem_validationErrors_appName p).symm,
    (mem_validationErrors_nspace p).symm, (mem_validationErrors_tiers p).symm⟩
  have hemp : (validationErrors p).isEmpty = false := by
    cases hv : validationErrors p
    · exact absurd hv hne
    · rfl
  unfold generateKubernetesManifests
  simp [hemp]

/-- Witness for C1 at a concrete input missing `appName` and `tiers`. -/
theorem c1_validation_completeness_witness :
    generateKubernetesManifests { appName := "", nspace := "dev", tiers := [] } =
      .error { message := "Validation failed", statusCode := 400,
               details := ["appName is required", "At least one tier is required"] } :=
  (c1_validation_completeness { appName := "", nspace := "dev", tiers := [] }
    (Or.inl rfl)).1

/-- The spec's minimal scenario input. -/
def c2payload : Payload :=
  { appName := "web", nspace := "dev", createNamespace := true,
    tiers := [{ name := "api", replicas := 2, image := "nginx:1.27", containerPort := 80,
                service := some { type := "ClusterIP", port := 80 } }] }

/-- C2: the scenario input produces exactly `namespace.yaml`,
`deployment-api.yaml` (containing `replicas: 2` and `image: nginx:1.27`)
and `service-api.yaml` (containing `port: 80`), and no
ConfigMap/Secret/PVC/PV/Ingress/RBAC file. -/
theorem c2_minimal_scenario :
    generateKubernetesManifests c2payload = .ok (genFiles c2payload)
    ∧ keys (genFiles c2payload) = ["namespace.yaml", "deployment-api.yaml", "service-api.yaml"]
    ∧ (∃ d, getFile (genFiles c2payload) "deployment-api.yaml" = some d
        ∧ strContains d "replicas: 2" ∧ strContains d "image: nginx:1.27")
    ∧ (∃ svc, getFile (genFiles c2payload) "service-api.yaml" = some svc
        ∧ strContains svc "port: 80") := by
  refine ⟨rfl, by decide, ⟨_, rfl, by decide, by decide⟩, ⟨_, rfl, by decide⟩⟩

/-- C8: the compiler is a pure function — byte-identical inputs give
byte-identical output mappings. -/
theorem c8_deterministic (p q : Payload) (h : p = q) :
    generateKubernetesManifests p = generateKubernetesManifests q :=
  congrArg generateKubernetesManifests h

/-- Witness for C8 at a concrete valid request. -/
theorem c8_deterministic_witness :
    generateKubernetesManifests
        { appName := "web", nspace := "dev", createNamespace := true,
          tiers := [{ name := "api", replicas := 1, image := "nginx", containerPort := 80 }] } =
      generateKubernetesManifests
        { appName := "web", nspace := "dev", createNamespace := true,
          tiers := [{ name := "api", replicas := 1, image := "nginx", containerPort := 80 }] } :=
  c8_deterministic _ _ rfl

/-! Containment of the namespace line and the app/tier labels in the
rendered documents. -/

theorem renderConfigMap_contains_nspace {tier : Tier} {nspace appName : String}
    {cm : CMOut} (h : renderConfigMap tier nspace appName = some cm) :
    strContains cm.content ("namespace: " ++ nspace) := by
  unfold renderConfigMap at h
  split at h
  · cases h
  · obtain rfl := Option.some.inj h
    repeat
      first
      | exact strContains_suffix_var _ _ "\n  " "namespace: " _ (by decide)
      | apply strContains_append_left

theorem renderSecret_contains_nspace {tier : Tier} {nspace appName : String}
    {secret : SecretOut} (h : renderSecret tier nspace appName = some secret) :
    strContains secret.content ("namespace: " ++ nspace) := by
  unfold renderSecret at h
  split at h
  · cases h
  · obtain rfl := Option.some.inj h
    repeat
      first
      | exact strContains_suffix_var _ _ "\n  " "namespace: " _ (by decide)
      | apply strContains_append_left

theorem generatePVC_contains_nspace {tier : Tier} {nspace appName : String}
    {pvc : PVCOut} (h : generatePVC tier nspace appName = some pvc) :
    strContains pvc.content ("namespace: " ++ nspace) := by
  unfold generatePVC at h
  split at h
  · cases h
  · split at h
    · cases h
    · obtain rfl := Option.some.inj h
      repeat
        first
        | exact strContains_suffix_var _ _ "\n  " "namespace: " _ (by decide)
        | apply strContains_append_left

theorem generateDeployment_contains_labels (tier : Tier) (nspace appName : String)
    (cmRef : Option CMOut) (secretRef : Option SecretOut) (pvcRef : Option PVCOut) :
    strContains (generateDeployment tier nspace appName cmRef secretRef pvcRef)
      ("namespace: " ++ nspace)
    ∧ strContains (generateDeployment tier nspace appName cmRef secretRef pvcRef)
      ("app: " ++ appName)
    ∧ strContains (generateDeployment tier nspace appName cmRef secretRef pvcRef)
      ("tier: " ++ tier.name) := by
  unfold generateDeployment
  dsimp only
  refine ⟨?_, ?_, ?_⟩
  · iterate 14 apply strContains_append_left
    exact strContains_suffix_var _ _ "\n  " "namespace: " _ (by decide)
  · iterate 12 apply strContains_append_left
    exact strContains_suffix_var _ _ "\n  labels:\n    " "app: " _ (by decide)
  · iterate 10 apply strContains_append_left
    exact strContains_suffix_var _ _ "\n    " "tier: " _ (by decide)

theorem generateStatefulSet_contains_labels (tier : Tier) (nspace appName : String)
    (cmRef : Option CMOut) (secretRef : Option SecretOut) :
    strContains (generateStatefulSet tier nspace appName cmRef secretRef)
      ("namespace: " ++ nspace)
    ∧ strContains (generateStatefulSet tier nspace appName cmRef secretRef)
      ("app: " ++ appName)
    ∧ strContains (generateStatefulSet tier nspace appName cmRef secretRef)
      ("tier: " ++ tier.name) := by
  unfold generateStatefulSet
  dsimp only
  refine ⟨?_, ?_, ?_⟩
  · iterate 15 apply strContains_append_left
    exact strContains_suffix_var _ _ "\n  " "namespace: " _ (by decide)
  · iterate 13 apply strContains_append_left
    exact strContains_suffix_var _ _ "\n  labels:\n    " "app: " _ (by decide)
  · iterate 11 apply strContains_append_left
    exact strContains_suffix_var _ _ "\n    " "tier: " _ (by decide)

theorem generateService_contains_labels {tier : Tier} {nspace appName : String}
    {doc : String} (h : generateService tier nspace appName = some doc) :
    strContains doc ("namespace: " ++ nspace)
    ∧ strContains doc ("app: " ++ appName)
    ∧ strContains doc ("tier: " ++ tier.name) := by
  unfold generateService at h
  split at h
  · cases h
  · obtain rfl := Option.some.inj h
    refine ⟨?_, ?_, ?_⟩
    · repeat
        first
        | exact strContains_suffix_var _ _ "\n  " "namespace: " _ (by decide)
        | apply strContains_append_left
    · repeat
        first
        | exact strContains_suffix_var _ _ "\n  labels:\n    " "app: " _ (by decide)
        | apply strContains_append_left
    · repeat
        first
        | exact strContains_suffix_var _ _ "\n    " "tier: " _ (by decide)
        | apply strContains_append_left

theorem generateHeadlessService_contains_labels (tier : Tier) (nspace appName : String) :
    strContains (generateHeadlessService tier nspace appName) ("namespace: " ++ nspace)
    ∧ strContains (generateHeadlessService tier nspace appName) ("app: " ++ appName)
    ∧ strContains (generateHeadlessService tier nspace appName) ("tier: " ++ tier.name) := by
  unfold generateHeadlessService
  refine ⟨?_, ?_, ?_⟩
  · repeat
      first
      | exact strContains_suffix_var _ _ "\n  " "namespace: " _ (by decide)
      | apply strContains_append_left
  · repeat
      first
      | exact strContains_suffix_var _ _ "\n  labels:\n    " "app: " _ (by decide)
      | apply strContains_append_left
  · repeat
      first
      | exact strContains_suffix_var _ _ "\n    " "tier: " _ (by decide)
      | apply strContains_append_left

theorem generateIngress_contains_nspace {tiers : List Tier} {nspace appName : String}
    {doc : String} (h : generateIngress tiers nspace appName = some doc) :
    strContains doc ("namespace: " ++ nspace) := by
  unfold generateIngress at h
  dsimp only at h
  split at h
  · cases h
  · obtain rfl := Option.some.inj h
    unfold ingressDoc
    repeat
      first
      | exact strContains_suffix_var _ _ "-ingress\n  " "namespace: " _ (by decide)
      | apply strContains_append_left

/-- Concrete tier for the C5 counterexample and witness. -/
def c5tier : Tier :=
  { name := "api", replicas := 1, image := "nginx", containerPort := 80,
    configMapData := [{ key := "K", value := "V" }] }

/-- Concrete payload for the C5 counterexample. -/
def c5payload : Payload :=
  { appName := "web", nspace := "dev", tiers := [c5tier] }

/-- C5 counterexample: on a valid request the emitted ConfigMap document
carries the namespace line but neither the `app` nor the `tier` label,
so not every emitted namespaced resource carries both labels. -/
theorem c5_labels_counterexample :
    generateKubernetesManifests c5payload = .ok (genFiles c5payload)
    ∧ (∃ d, getFile (genFiles c5payload) "configmap-api.yaml" = some d
        ∧ strContains d ("namespace: " ++ "dev")
        ∧ ¬ strContains d ("app: " ++ "web")
        ∧ ¬ strContains d ("tier: " ++ "api")) :=
  ⟨rfl, _, rfl, by decide, by decide, by decide⟩

/-- C5 amended: every emitted namespaced resource document carries
`namespace: {namespace}`; the workload and Service documents
(Deployment, StatefulSet, Service, headless Service) additionally carry
the labels `app: {appName}` and `tier: {tier.name}`, while
ConfigMap/Secret/PVC/Ingress documents carry only the namespace line. -/
theorem c5_namespace_and_labels :
    (∀ (tier : Tier) (nspace appName : String) (cm : CMOut),
      renderConfigMap tier nspace appName = some cm →
      strContains cm.content ("namespace: " ++ nspace))
    ∧ (∀ (tier : Tier) (nspace appName : String) (secret : SecretOut),
      renderSecret tier nspace appName = some secret →
      strContains secret.content ("namespace: " ++ nspace))
    ∧ (∀ (tier : Tier) (nspace appName : String) (pvc : PVCOut),
      generatePVC tier nspace appName = some pvc →
      strContains pvc.content ("namespace: " ++ nspace))
    ∧ (∀ (tier : Tier) (nspace appName : String) (cmRef : Option CMOut)
        (secretRef : Option SecretOut) (pvcRef : Option PVCOut),
      strContains (generateDeployment tier nspace appName cmRef secretRef pvcRef)
        ("namespace: " ++ nspace)
      ∧ strContains (generateDeployment tier nspace appName cmRef secretRef pvcRef)
        ("app: " ++ appName)
      ∧ strContains (generateDeployment tier nspace appName cmRef secretRef pvcRef)
        ("tier: " ++ tier.name))
    ∧ (∀ (tier : Tier) (nspace appName : String) (cmRef : Option CMOut)
        (secretRef : Option SecretOut),
      strContains (generateStatefulSet tier nspace appName cmRef secretRef)
        ("namespace: " ++ nspace)
      ∧ strContains (generateStatefulSet tier nspace appName cmRef secretRef)
        ("app: " ++ appName)
      ∧ strContains (generateStatefulSet tier nspace appName cmRef secretRef)
        ("tier: " ++ tier.name))
    ∧ (∀ (tier : Tier) (nspace appName doc : String),
      generateService tier nspace appName = some doc →
      strContains doc ("namespace: " ++ nspace)
      ∧ strContains doc ("app: " ++ appName)
      ∧ strContains doc ("tier: " ++ tier.name))
    ∧ (∀ (tier : Tier) (nspace appName : String),
      strContains (generateHeadlessService tier nspace appName) ("namespace: " ++ nspace)
      ∧ strContains (generateHeadlessService tier nspace appName) ("app: " ++ appName)
      ∧ strContains (generateHeadlessService tier nspace appName) ("tier: " ++ tier.name))
    ∧ (∀ (tiers : List Tier) (nspace appName doc : String),
      generateIngress tiers nspace appName = some doc →
      strContains doc ("namespace: " ++ nspace)) :=
  ⟨fun _ _ _ _ h => renderConfigMap_contains_nspace h,
   fun _ _ _ _ h => renderSecret_contains_nspace h,
   fun _ _ _ _ h => generatePVC_contains_nspace h,
   fun tier nspace appName cmRef secretRef pvcRef =>
     generateDeployment_contains_labels tier nspace appName cmRef secretRef pvcRef,
   fun tier nspace appName cmRef secretRef =>
     generateStatefulSet_contains_labels tier nspace appName cmRef secretRef,
   fun _ _ _ _ h => generateService_contains_labels h,
   fun tier nspace appName => generateHeadlessService_contains_labels tier nspace appName,
   fun _ _ _ _ h => generateIngress_contains_nspace h⟩

/-- Witness for C5 (amended) at concrete inputs. -/
theorem c5_namespace_and_labels_witness :
    ∃ cm, renderConfigMap c5tier "dev" "web" = some cm
      ∧ strContains cm.content ("namespace: " ++ "dev")
      ∧ strContains (generateHeadlessService c5tier "dev" "web") ("tier: " ++ "api") :=
  ⟨_, rfl, c5_namespace_and_labels.1 c5tier "dev" "web" _ rfl,
    (c5_namespace_and_labels.2.2.2.2.2.2.1 c5tier "dev" "web").2.2⟩

theorem str_append_assoc (a b c : String) : (a ++ b) ++ c = a ++ (b ++ c) :=
  str_eq_of_data (by simp [data_append, List.append_assoc])

/-- Generated filenames with distinguishable constant prefixes differ. -/
theorem pre_ne_pre (p q n m : String) (i : Nat) (c d : Char)
    (hc : p.data[i]? = some c) (hd : q.data[i]? = some d) (hne : c ≠ d) :
    p ++ n ++ ".yaml" ≠ q ++ m ++ ".yaml" := by
  rw [str_append_assoc, str_append_assoc]
  exact append_ne_append_char _ _ _ _ i c d hc hd hne

/-- A prefixed generated filename differs from a constant filename that
deviates within the prefix. -/
theorem pre_ne_const (p n q : String) (i : Nat) (c d : Char)
    (hc : p.data[i]? = some c) (hd : q.data[i]? = some d) (hne : c ≠ d) :
    p ++ n ++ ".yaml" ≠ q := by
  rw [str_append_assoc]
  exact append_ne_left_char _ _ _ i c d hc hd hne

/-- Equal filenames with the same prefix/suffix have equal tier names. -/
theorem key_name_inj {p n m : String} (h : p ++ n ++ ".yaml" = p ++ m ++ ".yaml") :
    n = m :=
  append_mid_inj h

/-- Whenever the eight-way `switch` returns null (missing required
sub-fields or an unrecognized type tag), `generatePV` returns null —
whatever the enabled/type guard says. -/
theorem generatePV_none_of_volumeSource_none {tier : Tier} {pv : PVSpec}
    {appName : String} (hpv : tier.pv = some pv)
    (hvs : pvVolumeSource pv tier appName = none) :
    generatePV tier appName = none := by
  unfold generatePV
  rw [hpv]
  dsimp only
  cases hty : pv.type with
  | none => rfl
  | some ty =>
    dsimp only
    split
    · rfl
    · rw [hvs]

theorem pvVolumeSource_nfs_missing {pv : PVSpec} (tier : Tier) (appName : String)
    (hty : pv.type = some "nfs")
    (hmiss : strT pv.nfsServer = false ∨ strT pv.nfsPath = false) :
    pvVolumeSource pv tier appName = none := by
  unfold pvVolumeSource
  rw [hty]
  rcases hmiss with h | h <;> simp [h]

theorem pvVolumeSource_awsEbs_missing {pv : PVSpec} (tier : Tier) (appName : String)
    (hty : pv.type = some "awsEbs") (hmiss : strT pv.awsVolumeID = false) :
    pvVolumeSource pv tier appName = none := by
  unfold pvVolumeSource
  rw [hty]
  simp [hmiss]

theorem pvVolumeSource_gcePd_missing {pv : PVSpec} (tier : Tier) (appName : String)
    (hty : pv.type = some "gcePd") (hmiss : strT pv.gcePdName = false) :
    pvVolumeSource pv tier appName = none := by
  unfold pvVolumeSource
  rw [hty]
  simp [hmiss]

theorem pvVolumeSource_azureDisk_missing {pv : PVSpec} (tier : Tier) (appName : String)
    (hty : pv.type = some "azureDisk")
    (hmiss : strT pv.azureDiskName = false ∨ strT pv.azureDiskURI = false) :
    pvVolumeSource pv tier appName = none := by
  unfold pvVolumeSource
  rw [hty]
  rcases hmiss with h | h <;> simp [h]

theorem pvVolumeSource_cephRbd_missing {pv : PVSpec} (tier : Tier) (appName : String)
    (hty : pv.type = some "cephRbd")
    (hmiss : strT pv.cephMonitors = false ∨ strT pv.cephPool = false
      ∨ strT pv.cephImage = false ∨ strT pv.cephUser = false) :
    pvVolumeSource pv tier appName = none := by
  unfold pvVolumeSource
  rw [hty]
  rcases hmiss with h | h | h | h <;> simp [h]

theorem pvVolumeSource_iscsi_missing {pv : PVSpec} (tier : Tier) (appName : String)
    (hty : pv.type = some "iscsi")
    (hmiss : strT pv.iscsiTargetPortal = false ∨ strT pv.iscsiIqn = false
      ∨ strT pv.iscsiLun = false) :
    pvVolumeSource pv tier appName = none := by
  unfold pvVolumeSource
  rw [hty]
  rcases hmiss with h | h | h <;> simp [h]

/-- A type tag outside the eight recognized backends hits the switch's
default branch (the hostPath/local backends have no required fields). -/
theorem pvVolumeSource_unrecognized {pv : PVSpec} (tier : Tier) (appName : String)
    {ty : String} (hty : pv.type = some ty)
    (hn : ty ∉ ["hostPath", "nfs", "local", "awsEbs", "gcePd", "azureDisk",
      "cephRbd", "iscsi"]) :
    pvVolumeSource pv tier appName = none := by
  unfold pvVolumeSource
  rw [hty]
  have hg : (some ty).getD "" = ty := rfl
  rw [hg]
  split
  all_goals first | rfl | simp_all

theorem orS_eq_default {o : Option String} {d : String} (h : strT o = false) :
    orS o d = d := by
  cases o with
  | none => rfl
  | some s =>
    unfold strT at h
    simp only [bne_eq_false_iff_eq] at h
    simp [orS, h]

/-- If the pv file key for tier `t` is present, then `t` itself produced
a PV document (no other construct can emit that filename). -/
theorem pv_key_unique {p : Payload} {t : Tier} (ht : t ∈ p.tiers)
    (huniq : ∀ t' ∈ p.tiers, t'.name = t.name → t' = t)
    (hk : ("pv-" ++ t.name ++ ".yaml") ∈ keys (genFiles p)) :
    (generatePV t p.appName).isSome = true := by
  rcases mem_keys_genFiles hk with ⟨_, hkey⟩ | ⟨t', ht', horig⟩ | ⟨_, hkey⟩ | ⟨_, hkeys⟩
  · exact absurd hkey
      (pre_ne_const "pv-" t.name "namespace.yaml" 0 'p' 'n' (by decide) (by decide) (by decide))
  · rcases horig with h1 | h1
    · unfold pass1Origin at h1
      rcases h1 with ⟨_, hkey⟩ | ⟨_, hkey⟩ | ⟨_, hkey⟩ | ⟨_, hsome, hkey⟩
      · exact absurd hkey
          (pre_ne_pre "pv-" "configmap-" t.name t'.name 0 'p' 'c'
            (by decide) (by decide) (by decide))
      · exact absurd hkey
          (pre_ne_pre "pv-" "secret-" t.name t'.name 0 'p' 's'
            (by decide) (by decide) (by decide))
      · exact absurd hkey
          (pre_ne_pre "pv-" "pvc-" t.name t'.name 2 '-' 'c'
            (by decide) (by decide) (by decide))
      · have hnm : t.name = t'.name := key_name_inj hkey
        have heq : t' = t := huniq t' ht' hnm.symm
        subst heq
        exact hsome
    · unfold pass2Origin at h1
      rcases h1 with ⟨_, hkey | hkey⟩ | ⟨_, hkey⟩ | ⟨_, hkey⟩
      · exact absurd hkey
          (pre_ne_pre "pv-" "headless-service-" t.name t'.name 0 'p' 'h'
            (by decide) (by decide) (by decide))
      · exact absurd hkey
          (pre_ne_pre "pv-" "statefulset-" t.name t'.name 0 'p' 's'
            (by decide) (by decide) (by decide))
      · exact absurd hkey
          (pre_ne_pre "pv-" "deployment-" t.name t'.name 0 'p' 'd'
            (by decide) (by decide) (by decide))
      · exact absurd hkey
          (pre_ne_pre "pv-" "service-" t.name t'.name 0 'p' 's'
            (by decide) (by decide) (by decide))
  · exact absurd hkey
      (pre_ne_const "pv-" t.name "ingress.yaml" 0 'p' 'i' (by decide) (by decide) (by decide))
  · rcases hkeys with hkey | hkey | hkey
    · exact absurd hkey
        (pre_ne_const "pv-" t.name "serviceaccount.yaml" 0 'p' 's'
          (by decide) (by decide) (by decide))
    · exact absurd hkey
        (pre_ne_const "pv-" t.name "role.yaml" 0 'p' 'r' (by decide) (by decide) (by decide))
    · exact absurd hkey
        (pre_ne_const "pv-" t.name "rolebinding.yaml" 0 'p' 'r'
          (by decide) (by decide) (by decide))

/-- C6: a PV spec whose backend `switch` returns null never aborts
compilation — on a valid request `compile` still returns the mapping,
`generatePV` is null, and no `pv-{tier.name}.yaml` entry appears — and
the switch returns null exactly in the claim's situations: per-backend
required sub-fields missing (nfs server/path, awsEbs volumeID, gcePd
pdName, azureDisk diskName/diskURI, cephRbd monitors/pool/image/user,
iscsi targetPortal/iqn/lun; hostPath and local require nothing) or an
unrecognized type tag. -/
theorem c6_pv_partial_success :
    (∀ (p : Payload) (t : Tier) (pv : PVSpec),
      validationErrors p = [] → t ∈ p.tiers →
      (∀ t' ∈ p.tiers, t'.name = t.name → t' = t) →
      t.pv = some pv → pvVolumeSource pv t p.appName = none →
      generateKubernetesManifests p = .ok (genFiles p)
      ∧ generatePV t p.appName = none
      ∧ ("pv-" ++ t.name ++ ".yaml") ∉ keys (genFiles p))
    ∧ (∀ (pv : PVSpec) (tier : Tier) (appName : String),
      pv.type = some "nfs" →
      strT pv.nfsServer = false ∨ strT pv.nfsPath = false →
      pvVolumeSource pv tier appName = none)
    ∧ (∀ (pv : PVSpec) (tier : Tier) (appName : String),
      pv.type = some "awsEbs" → strT pv.awsVolumeID = false →
      pvVolumeSource pv tier appName = none)
    ∧ (∀ (pv : PVSpec) (tier : Tier) (appName : String),
      pv.type = some "gcePd" → strT pv.gcePdName = false →
      pvVolumeSource pv tier appName = none)
    ∧ (∀ (pv : PVSpec) (tier : Tier) (appName : String),
      pv.type = some "azureDisk" →
      strT pv.azureDiskName = false ∨ strT pv.azureDiskURI = false →
      pvVolumeSource pv tier appName = none)
    ∧ (∀ (pv : PVSpec) (tier : Tier) (appName : String),
      pv.type = some "cephRbd" →
      strT pv.cephMonitors = false ∨ strT pv.cephPool = false
        ∨ strT pv.cephImage = false ∨ strT pv.cephUser = false →
      pvVolumeSource pv tier appName = none)
    ∧ (∀ (pv : PVSpec) (tier : Tier) (appName : String),
      pv.type = some "iscsi" →
      strT pv.iscsiTargetPortal = false ∨ strT pv.iscsiIqn = false
        ∨ strT pv.iscsiLun = false →
      pvVolumeSource pv tier appName = none)
    ∧ (∀ (pv : PVSpec) (tier : Tier) (appName : String) (ty : String),
      pv.type = some ty →
      ty ∉ ["hostPath", "nfs", "local", "awsEbs", "gcePd", "azureDisk",
        "cephRbd", "iscsi"] →
      pvVolumeSource pv tier appName = none) := by
  refine ⟨?_, fun pv tier appName hty hmiss => pvVolumeSource_nfs_missing tier appName hty hmiss,
    fun pv tier appName hty hmiss => pvVolumeSource_awsEbs_missing tier appName hty hmiss,
    fun pv tier appName hty hmiss => pvVolumeSource_gcePd_missing tier appName hty hmiss,
    fun pv tier appName hty hmiss => pvVolumeSource_azureDisk_missing tier appName hty hmiss,
    fun pv tier appName hty hmiss => pvVolumeSource_cephRbd_missing tier appName hty hmiss,
    fun pv tier appName hty hmiss => pvVolumeSource_iscsi_missing tier appName hty hmiss,
    fun pv tier appName ty hty hn => pvVolumeSource_unrecognized tier appName hty hn⟩
  intro p t pv hv ht huniq hpv hvs
  have hnone : generatePV t p.appName = none :=
    generatePV_none_of_volumeSource_none hpv hvs
  refine ⟨by unfold generateKubernetesManifests; simp [hv], hnone, ?_⟩
  intro hk
  have h := pv_key_unique ht huniq hk
  rw [hnone] at h
  simp at h

/-- Concrete tier for the C6 witness: nfs PV without a server. -/
def c6tier : Tier :=
  { name := "db", replicas := 1, image := "postgres", containerPort := 5432,
    pv := some { enabled := true, type := some "nfs", nfsPath := some "/exports" } }

/-- Second concrete tier for the C6 witness: an unrecognized PV type. -/
def c6tierUnknown : Tier :=
  { name := "cache", replicas := 1, image := "redis", containerPort := 6379,
    pv := some { enabled := true, type := some "glusterfs" } }

/-- Concrete payload for the C6 witness. -/
def c6payload : Payload :=
  { appName := "web", nspace := "dev", tiers := [c6tier, c6tierUnknown] }

/-- Witness for C6 at a concrete input: an nfs tier missing its server
and a tier with an unrecognized type tag, in one compiled request. -/
theorem c6_pv_partial_success_witness :
    (generateKubernetesManifests c6payload = .ok (genFiles c6payload)
      ∧ generatePV c6tier "web" = none
      ∧ ("pv-" ++ c6tier.name ++ ".yaml") ∉ keys (genFiles c6payload))
    ∧ (generatePV c6tierUnknown "web" = none
      ∧ ("pv-" ++ c6tierUnknown.name ++ ".yaml") ∉ keys (genFiles c6payload)) := by
  have h := c6_pv_partial_success
  have hnfs := h.1 c6payload c6tier
    { enabled := true, type := some "nfs", nfsPath := some "/exports" }
    (by decide) (by decide) (by decide) rfl
    (h.2.1 { enabled := true, type := some "nfs", nfsPath := some "/exports" }
      c6tier "web" rfl (Or.inl rfl))
  have hunk := h.1 c6payload c6tierUnknown
    { enabled := true, type := some "glusterfs" }
    (by decide) (by decide) (by decide) rfl
    (h.2.2.2.2.2.2.2 { enabled := true, type := some "glusterfs" }
      c6tierUnknown "web" "glusterfs" rfl (by decide))
  exact ⟨hnfs, hunk.2.1, hunk.2.2⟩

theorem generatePV_iscsi_isSome {tier : Tier} {pv : PVSpec} (appName : String)
    (hpv : tier.pv = some pv) (hen : pv.enabled = true) (hty : pv.type = some "iscsi") :
    (generatePV tier appName).isSome =
      (strT pv.iscsiTargetPortal && strT pv.iscsiIqn && strT pv.iscsiLun) := by
  unfold generatePV pvVolumeSource
  rw [hpv]
  dsimp only
  rw [hty]
  dsimp only
  cases h1 : strT pv.iscsiTargetPortal <;> cases h2 : strT pv.iscsiIqn <;>
    cases h3 : strT pv.iscsiLun <;> simp [hen, h1, h2, h3]

theorem pvVolumeSource_iscsi {pv : PVSpec} (tier : Tier) (appName : String)
    (hty : pv.type = some "iscsi") :
    pvVolumeSource pv tier appName =
      (if !strT pv.iscsiTargetPortal || !strT pv.iscsiIqn || !strT pv.iscsiLun then none
       else some ("  iscsi:\n    targetPortal: " ++ pv.iscsiTargetPortal.getD ""
         ++ "\n    iqn: " ++ pv.iscsiIqn.getD ""
         ++ "\n    lun: " ++ pv.iscsiLun.getD ""
         ++ "\n    fsType: " ++ orS pv.iscsiFsType "ext4" ++ "\n")) := by
  unfold pvVolumeSource
  rw [hty]
  rfl

theorem generatePV_iscsi_fsType {tier : Tier} {pv : PVSpec} {out : PVOut}
    (appName : String) (hpv : tier.pv = some pv) (hty : pv.type = some "iscsi")
    (hfs : strT pv.iscsiFsType = false)
    (hout : generatePV tier appName = some out) :
    strContains out.content "fsType: ext4" := by
  unfold generatePV at hout
  rw [hpv] at hout
  dsimp only at hout
  rw [hty] at hout
  dsimp only at hout
  split at hout
  · cases hout
  · split at hout
    next heq =>
      cases hout
    next volumeSource heq =>
      rw [pvVolumeSource_iscsi tier appName hty] at heq
      split at heq
      · cases heq
      · obtain rfl := Option.some.inj heq
        obtain rfl := Option.some.inj hout
        dsimp only
        rw [orS_eq_default hfs]
        rw [show ("fsType: ext4" : String) = "fsType: " ++ "ext4" from by decide]
        apply strContains_append_right
        apply strContains_append_left
        exact strContains_suffix_var _ _ "\n    " "fsType: " _ (by decide)

/-- C7: on a valid request, a tier with an enabled `iscsi`-typed `pv`
block yields a `pv-{tier.name}.yaml` entry iff `iscsiTargetPortal`,
`iscsiIqn` and `iscsiLun` are all present (non-empty), and the emitted
document falls back to `fsType: ext4` when `iscsiFsType` is absent. -/
theorem c7_pv_iscsi (p : Payload) (t : Tier) (pv : PVSpec)
    (hv : validationErrors p = []) (ht : t ∈ p.tiers)
    (huniq : ∀ t' ∈ p.tiers, t'.name = t.name → t' = t)
    (hpv : t.pv = some pv) (hen : pv.enabled = true) (hty : pv.type = some "iscsi") :
    generateKubernetesManifests p = .ok (genFiles p)
    ∧ (("pv-" ++ t.name ++ ".yaml") ∈ keys (genFiles p)
        ↔ (strT pv.iscsiTargetPortal && strT pv.iscsiIqn && strT pv.iscsiLun) = true)
    ∧ (∀ out, generatePV t p.appName = some out → strT pv.iscsiFsType = false →
        strContains out.content "fsType: ext4") := by
  refine ⟨by unfold generateKubernetesManifests; simp [hv], ⟨?_, ?_⟩, ?_⟩
  · intro hk
    have h := pv_key_unique ht huniq hk
    rw [generatePV_iscsi_isSome p.appName hpv hen hty] at h
    exact h
  · intro hall
    have hsome : (generatePV t p.appName).isSome = true := by
      rw [generatePV_iscsi_isSome p.appName hpv hen hty]
      exact hall
    obtain ⟨out, hout⟩ := Option.isSome_iff_exists.mp hsome
    have hguard : pvGuard t = true := by
      simp [pvGuard, hpv, hen, hty, strT]
    have hmem1 : ("pv-" ++ t.name ++ ".yaml") ∈ keys (pass1 p).files := by
      unfold pass1
      exact pass1_fold_adds ht (fun st' => pass1Step_adds_pv hguard hout)
    have hmem2 : ("pv-" ++ t.name ++ ".yaml") ∈ keys (pass2Files p) := by
      unfold pass2Files
      exact mem_keys_pass2_fold_mono hmem1
    exact mem_keys_genFiles_of_pass2 hmem2
  · intro out hout hfs
    exact generatePV_iscsi_fsType p.appName hpv hty hfs hout

/-- Concrete tier for the C7 witness. -/
def c7tier : Tier :=
  { name := "san", replicas := 1, image := "img", containerPort := 80,
    pv := some { enabled := true, type := some "iscsi",
                 iscsiTargetPortal := some "10.0.0.1:3260",
                 iscsiIqn := some "iqn.2026-01.com.example:target",
                 iscsiLun := some "0" } }

/-- Concrete payload for the C7 witness. -/
def c7payload : Payload :=
  { appName := "web", nspace := "dev", tiers := [c7tier] }

/-- Witness for C7 at a concrete input. -/
theorem c7_pv_iscsi_witness :
    ("pv-" ++ c7tier.name ++ ".yaml") ∈ keys (genFiles c7payload)
    ∧ (∃ out, generatePV c7tier "web" = some out
        ∧ strContains out.content "fsType: ext4") := by
  have h := c7_pv_iscsi c7payload c7tier
    { enabled := true, type := some "iscsi",
      iscsiTargetPortal := some "10.0.0.1:3260",
      iscsiIqn := some "iqn.2026-01.com.example:target",
      iscsiLun := some "0" }
    (by decide) (by decide) (by decide) rfl rfl rfl
  exact ⟨h.2.1.mpr (by decide), _, rfl, h.2.2 _ rfl (by decide)⟩

/-- If the service file key for tier `t` is present, then `t` itself
declares a service block (no other construct can emit that filename). -/
theorem service_key_unique {p : Payload} {t : Tier} (ht : t ∈ p.tiers)
    (huniq : ∀ t' ∈ p.tiers, t'.name = t.name → t' = t)
    (hk : ("service-" ++ t.name ++ ".yaml") ∈ keys (genFiles p)) :
    t.service.isSome = true := by
  rcases mem_keys_genFiles hk with ⟨_, hkey⟩ | ⟨t', ht', horig⟩ | ⟨_, hkey⟩ | ⟨_, hkeys⟩
  · exact absurd hkey
      (pre_ne_const "service-" t.name "namespace.yaml" 0 's' 'n'
        (by decide) (by decide) (by decide))
  · rcases horig with h1 | h1
    · unfold pass1Origin at h1
      rcases h1 with ⟨_, hkey⟩ | ⟨_, hkey⟩ | ⟨_, hkey⟩ | ⟨_, _, hkey⟩
      · exact absurd hkey
          (pre_ne_pre "service-" "configmap-" t.name t'.name 0 's' 'c'
            (by decide) (by decide) (by decide))
      · exact absurd hkey
          (pre_ne_pre "service-" "secret-" t.name t'.name 2 'r' 'c'
            (by decide) (by decide) (by decide))
      · exact absurd hkey
          (pre_ne_pre "service-" "pvc-" t.name t'.name 0 's' 'p'
            (by decide) (by decide) (by decide))
      · exact absurd hkey
          (pre_ne_pre "service-" "pv-" t.name t'.name 0 's' 'p'
            (by decide) (by decide) (by decide))
    · unfold pass2Origin at h1
      rcases h1 with ⟨_, hkey | hkey⟩ | ⟨_, hkey⟩ | ⟨hsvc, hkey⟩
      · exact absurd hkey
          (pre_ne_pre "service-" "headless-service-" t.name t'.name 0 's' 'h'
            (by decide) (by decide) (by decide))
      · exact absurd hkey
          (pre_ne_pre "service-" "statefulset-" t.name t'.name 1 'e' 't'
            (by decide) (by decide) (by decide))
      · exact absurd hkey
          (pre_ne_pre "service-" "deployment-" t.name t'.name 0 's' 'd'
            (by decide) (by decide) (by decide))
      · have hnm : t.name = t'.name := key_name_inj hkey
        have heq : t' = t := huniq t' ht' hnm.symm
        subst heq
        exact hsvc
  · exact absurd hkey
      (pre_ne_const "service-" t.name "ingress.yaml" 0 's' 'i'
        (by decide) (by decide) (by decide))
  · rcases hkeys with hkey | hkey | hkey
    · exact absurd hkey
        (pre_ne_const "service-" t.name "serviceaccount.yaml" 7 '-' 'a'
          (by decide) (by decide) (by decide))
    · exact absurd hkey
        (pre_ne_const "service-" t.name "role.yaml" 0 's' 'r'
          (by decide) (by decide) (by decide))
    · exact absurd hkey
        (pre_ne_const "service-" t.name "rolebinding.yaml" 0 's' 'r'
          (by decide) (by decide) (by decide))

theorem generateService_targetPort {tier : Tier} {svc : ServiceSpec}
    (nspace appName : String) (h : tier.service = some svc) :
    ∃ doc, generateService tier nspace appName = some doc
      ∧ strContains doc ("targetPort: " ++ toString (orN svc.targetPort tier.containerPort)) := by
  unfold generateService
  rw [h]
  dsimp only
  refine ⟨_, rfl, ?_⟩
  apply strContains_append_right
  apply strContains_append_left
  exact strContains_suffix_var _ _ "\n      " "targetPort: " _ (by decide)

/-- Concrete payload for the C9 counterexample: `targetPort` is set
(to `0`) yet the emitted Service uses `containerPort`. -/
def c9payload : Payload :=
  { appName := "web", nspace := "dev",
    tiers := [{ name := "api", replicas := 1, image := "nginx", containerPort := 8080,
                service := some { type := "ClusterIP", port := 80, targetPort := some 0 } }] }

/-- C9 counterexample: with `service.targetPort` set to `0`, the emitted
document renders `targetPort: 8080` (the containerPort), not
`targetPort: 0` — `targetPort || containerPort` treats `0` as unset. -/
theorem c9_targetPort_counterexample :
    ∃ doc, getFile (genFiles c9payload) "service-api.yaml" = some doc
      ∧ ¬ strContains doc ("targetPort: " ++ toString 0)
      ∧ strContains doc ("targetPort: " ++ toString 8080) :=
  ⟨_, rfl, by decide, by decide⟩

/-- C9 amended: on a valid request, `service-{tier.name}.yaml` is
emitted iff the tier declares a `service` block, and the rendered
document's `targetPort` equals `service.targetPort` when that is set
and nonzero, and `containerPort` when it is unset or zero (`orN`). -/
theorem c9_service_emission (p : Payload) (t : Tier)
    (hv : validationErrors p = []) (ht : t ∈ p.tiers)
    (huniq : ∀ t' ∈ p.tiers, t'.name = t.name → t' = t) :
    generateKubernetesManifests p = .ok (genFiles p)
    ∧ (("service-" ++ t.name ++ ".yaml") ∈ keys (genFiles p) ↔ t.service.isSome = true)
    ∧ (∀ svc, t.service = some svc →
        ∃ doc, generateService t p.nspace p.appName = some doc
          ∧ strContains doc ("targetPort: " ++ toString (orN svc.targetPort t.containerPort))) := by
  refine ⟨by unfold generateKubernetesManifests; simp [hv], ⟨?_, ?_⟩, ?_⟩
  · exact service_key_unique ht huniq
  · intro hsvc
    have hmem2 : ("service-" ++ t.name ++ ".yaml") ∈ keys (pass2Files p) := by
      unfold pass2Files
      exact pass2_fold_adds ht (fun fs' => pass2Step_adds_service hsvc)
    exact mem_keys_genFiles_of_pass2 hmem2
  · intro svc hsvc
    exact generateService_targetPort p.nspace p.appName hsvc

/-- Concrete tier for the C9 witness. -/
def c9tier : Tier :=
  { name := "api", replicas := 1, image := "nginx", containerPort := 80,
    service := some { type := "ClusterIP", port := 80 } }

/-- Witness for C9 (amended) at a concrete input. -/
theorem c9_service_emission_witness :
    ("service-" ++ c9tier.name ++ ".yaml")
      ∈ keys (genFiles { appName := "web", nspace := "dev", tiers := [c9tier] })
    ∧ (∃ doc, generateService c9tier "dev" "web" = some doc
        ∧ strContains doc ("targetPort: " ++ toString (orN none 80))) := by
  have h := c9_service_emission { appName := "web", nspace := "dev", tiers := [c9tier] }
    c9tier (by decide) (by decide) (by decide)
  exact ⟨h.2.1.mpr (by decide), h.2.2 { type := "ClusterIP", port := 80 } rfl⟩

/-- If the pvc file key for tier `t` is present, then `t` itself passed
the PVC guard (no other construct can emit that filename). -/
theorem pvc_key_unique {p : Payload} {t : Tier} (ht : t ∈ p.tiers)
    (huniq : ∀ t' ∈ p.tiers, t'.name = t.name → t' = t)
    (hk : ("pvc-" ++ t.name ++ ".yaml") ∈ keys (genFiles p)) :
    pvcGuard t = true := by
  rcases mem_keys_genFiles hk with ⟨_, hkey⟩ | ⟨t', ht', horig⟩ | ⟨_, hkey⟩ | ⟨_, hkeys⟩
  · exact absurd hkey
      (pre_ne_const "pvc-" t.name "namespace.yaml" 0 'p' 'n'
        (by decide) (by decide) (by decide))
  · rcases horig with h1 | h1
    · unfold pass1Origin at h1
      rcases h1 with ⟨_, hkey⟩ | ⟨_, hkey⟩ | ⟨hguard, hkey⟩ | ⟨_, _, hkey⟩
      · exact absurd hkey
          (pre_ne_pre "pvc-" "configmap-" t.name t'.name 0 'p' 'c'
            (by decide) (by decide) (by decide))
      · exact absurd hkey
          (pre_ne_pre "pvc-" "secret-" t.name t'.name 0 'p' 's'
            (by decide) (by decide) (by decide))
      · have hnm : t.name = t'.name := key_name_inj hkey
        have heq : t' = t := huniq t' ht' hnm.symm
        subst heq
        exact hguard
      · exact absurd hkey
          (pre_ne_pre "pvc-" "pv-" t.name t'.name 2 'c' '-'
            (by decide) (by decide) (by decide))
    · unfold pass2Origin at h1
      rcases h1 with ⟨_, hkey | hkey⟩ | ⟨_, hkey⟩ | ⟨_, hkey⟩
      · exact absurd hkey
          (pre_ne_pre "pvc-" "headless-service-" t.name t'.name 0 'p' 'h'
            (by decide) (by decide) (by decide))
      · exact absurd hkey
          (pre_ne_pre "pvc-" "statefulset-" t.name t'.name 0 'p' 's'
            (by decide) (by decide) (by decide))
      · exact absurd hkey
          (pre_ne_pre "pvc-" "deployment-" t.name t'.name 0 'p' 'd'
            (by decide) (by decide) (by decide))
      · exact absurd hkey
          (pre_ne_pre "pvc-" "service-" t.name t'.name 0 'p' 's'
            (by decide) (by decide) (by decide))
  · exact absurd hkey
      (pre_ne_const "pvc-" t.name "ingress.yaml" 0 'p' 'i'
        (by decide) (by decide) (by decide))
  · rcases hkeys with hkey | hkey | hkey
    · exact absurd hkey
        (pre_ne_const "pvc-" t.name "serviceaccount.yaml" 0 'p' 's'
          (by decide) (by decide) (by decide))
    · exact absurd hkey
        (pre_ne_const "pvc-" t.name "role.yaml" 0 'p' 'r'
          (by decide) (by decide) (by decide))
    · exact absurd hkey
        (pre_ne_const "pvc-" t.name "rolebinding.yaml" 0 'p' 'r'
          (by decide) (by decide) (by decide))

theorem pass2Step_adds_statefulset {nspace appName : String}
    {cmRefs : List (String × CMOut)} {secretRefs : List (String × SecretOut)}
    {pvcRefs : List (String × PVCOut)} {fs : Files} {tier : Tier}
    (hss : isSS tier = true) :
    ("statefulset-" ++ tier.name ++ ".yaml")
      ∈ keys (pass2Step nspace appName cmRefs secretRefs pvcRefs fs tier) := by
  have h := @pass2Step_adds_workload nspace appName cmRefs secretRefs pvcRefs fs tier
  rw [hss] at h
  simpa using h

theorem statefulSetVctSection_eq {tier : Tier} {pvc : PVCSpec}
    (hpvc : tier.pvc = some pvc) (hen : pvc.enabled = true) :
    statefulSetVctSection tier =
      "\n" ++ ("  volumeClaimTemplates:\n    - metadata:\n        name: data\n      spec:\n        accessModes:\n          - "
        ++ pvc.accessMode.getD "ReadWriteOnce" ++ "\n"
        ++ (if pvc.storageClass.getD "" = "" then "" else
            "        storageClassName: \"" ++ pvc.storageClass.getD "" ++ "\"\n")
        ++ "        resources:\n          requests:\n            storage: "
        ++ pvc.size.getD "5Gi") := by
  unfold statefulSetVctSection
  rw [hpvc]
  simp [hen]

/-- C3: on a valid request, a StatefulSet tier with `pvc.enabled` never
yields a standalone `pvc-{tier.name}.yaml`; its StatefulSet document is
emitted and contains a `volumeClaimTemplates` section with a claim named
`data` mounted at `pvc.mountPath` (default `/data`), and the
StatefulSet's `volumes:` list never references a PVC by claim name. -/
theorem c3_statefulset_exclusivity (p : Payload) (t : Tier) (pvc : PVCSpec)
    (hv : validationErrors p = []) (ht : t ∈ p.tiers)
    (huniq : ∀ t' ∈ p.tiers, t'.name = t.name → t' = t)
    (hw : t.workloadType = some "StatefulSet")
    (hpvc : t.pvc = some pvc) (hen : pvc.enabled = true) :
    generateKubernetesManifests p = .ok (genFiles p)
    ∧ ("pvc-" ++ t.name ++ ".yaml") ∉ keys (genFiles p)
    ∧ ("statefulset-" ++ t.name ++ ".yaml") ∈ keys (genFiles p)
    ∧ (∀ (cmRef : Option CMOut) (secretRef : Option SecretOut),
        strContains (generateStatefulSet t p.nspace p.appName cmRef secretRef)
          ("volumeClaimTemplates:\n    - metadata:\n        name: data")
        ∧ strContains (generateStatefulSet t p.nspace p.appName cmRef secretRef)
          ("mountPath: " ++ pvc.mountPath.getD "/data")
        ∧ (statefulSetVolumeEntries cmRef secretRef).all
            (fun v => !isPvcClaimEntry v) = true) := by
  have hss : isSS t = true := by
    simp [isSS, orS, hw]
  refine ⟨by unfold generateKubernetesManifests; simp [hv], ?_, ?_, ?_⟩
  · intro hk
    have hguard := pvc_key_unique ht huniq hk
    have hfalse : pvcGuard t = false := by
      simp [pvcGuard, hpvc, hen, hw, strT]
    rw [hfalse] at hguard
    cases hguard
  · have hmem2 : ("statefulset-" ++ t.name ++ ".yaml") ∈ keys (pass2Files p) := by
      unfold pass2Files
      exact pass2_fold_adds ht (fun fs' => pass2Step_adds_statefulset hss)
    exact mem_keys_genFiles_of_pass2 hmem2
  · intro cmRef secretRef
    refine ⟨?_, ?_, ?_⟩
    · unfold generateStatefulSet
      dsimp only
      rw [statefulSetVctSection_eq hpvc hen]
      apply strContains_append_left
      apply strContains_append_right
      apply strContains_append_right
      iterate 5 apply strContains_append_left
      decide
    · have hmem : ("            - name: data\n              mountPath: "
          ++ pvc.mountPath.getD "/data") ∈ statefulSetVolumeMounts t cmRef secretRef := by
        unfold statefulSetVolumeMounts
        rw [hpvc]
        simp [hen]
      have hx : strContains ("            - name: data\n              mountPath: "
          ++ pvc.mountPath.getD "/data") ("mountPath: " ++ pvc.mountPath.getD "/data") :=
        strContains_head_var _ "            - name: data\n              "
          "mountPath: " _ (by decide)
      have hj : strContains (joinLines (statefulSetVolumeMounts t cmRef secretRef))
          ("mountPath: " ++ pvc.mountPath.getD "/data") :=
        strContains_trans hx (strContains_joinLines _ _ hmem)
      have hisEmpty : (statefulSetVolumeMounts t cmRef secretRef).isEmpty = false := by
        cases hmts : statefulSetVolumeMounts t cmRef secretRef with
        | nil => rw [hmts] at hmem; cases hmem
        | cons a l => rfl
      unfold generateStatefulSet
      dsimp only
      rw [hisEmpty]
      simp only [Bool.false_eq_true, if_false]
      iterate 3 apply strContains_append_left
      apply strContains_append_right
      apply strContains_append_right
      exact hj
    · unfold statefulSetVolumeEntries
      cases cmRef <;> cases secretRef <;> simp [isPvcClaimEntry]

/-- Concrete tier for the C3 witness. -/
def c3tier : Tier :=
  { name := "db", replicas := 1, image := "postgres", containerPort := 5432,
    workloadType := some "StatefulSet", pvc := some { enabled := true } }

/-- Concrete payload for the C3 witness. -/
def c3payload : Payload :=
  { appName := "web", nspace := "dev", tiers := [c3tier] }

/-- Witness for C3 at a concrete input. -/
theorem c3_statefulset_exclusivity_witness :
    ("pvc-" ++ c3tier.name ++ ".yaml") ∉ keys (genFiles c3payload)
    ∧ ("statefulset-" ++ c3tier.name ++ ".yaml") ∈ keys (genFiles c3payload)
    ∧ strContains (generateStatefulSet c3tier "dev" "web" none none)
        ("volumeClaimTemplates:\n    - metadata:\n        name: data") := by
  have h := c3_statefulset_exclusivity c3payload c3tier { enabled := true }
    (by decide) (by decide) (by decide) rfl rfl rfl
  exact ⟨h.2.1, h.2.2.1, (h.2.2.2 none none).1⟩

theorem ingressStep_skip {appName : String} {acc : List (String × List IngressRule)}
    {tier : Tier} (hq : (tier.ingress.isSome && tier.service.isSome) = false) :
    ingressStep appName acc tier = acc := by
  unfold ingressStep
  cases hi : tier.ingress <;> cases hs : tier.service <;> simp_all

/-- Non-qualifying tiers contribute nothing to the host grouping. -/
theorem foldl_ingressStep_filter (appName : String) (l : List Tier)
    (acc : List (String × List IngressRule)) :
    l.foldl (ingressStep appName) acc =
      (l.filter (fun t => t.ingress.isSome && t.service.isSome)).foldl
        (ingressStep appName) acc := by
  induction l generalizing acc with
  | nil => rfl
  | cons t ts ih =>
    by_cases hq : (t.ingress.isSome && t.service.isSome) = true
    · simp only [List.foldl_cons, List.filter_cons, hq, if_true]
      exact ih (ingressStep appName acc t)
    · have hq' : (t.ingress.isSome && t.service.isSome) = false :=
        Bool.not_eq_true _ ▸ hq
      simp only [List.foldl_cons, List.filter_cons, hq', Bool.false_eq_true, if_false,
        ingressStep_skip hq']
      exact ih acc

theorem rulesByHost_of_no_qualifier {tiers : List Tier} {appName : String}
    (h : tiers.filter (fun t => t.ingress.isSome && t.service.isSome) = []) :
    rulesByHost tiers appName = [] := by
  unfold rulesByHost
  rw [foldl_ingressStep_filter, h]
  rfl

theorem putRule_ne_nil (m : List (String × List IngressRule)) (host : String)
    (r : IngressRule) : putRule m host r ≠ [] := by
  cases m with
  | nil => simp [putRule]
  | cons e rest =>
    unfold putRule
    split <;> simp

theorem getFile_genFiles_ingress {p : Payload} {doc : String}
    (hi : generateIngress p.tiers p.nspace p.appName = some doc) :
    getFile (genFiles p) "ingress.yaml" = some doc := by
  have hwi : getFile (filesWithIngress p) "ingress.yaml" = some doc := by
    unfold filesWithIngress
    rw [hi]
    exact getFile_putFile_self _ _ _
  unfold genFiles
  split
  · simp only [generateRBAC, List.foldl_cons, List.foldl_nil]
    rw [getFile_putFile_ne _ _ _ _ (by decide), getFile_putFile_ne _ _ _ _ (by decide),
      getFile_putFile_ne _ _ _ _ (by decide)]
    exact hwi
  · exact hwi

/-- C4: on a valid request with exactly two qualifying tiers (both
`ingress` and `service` present), one Ingress document is emitted under
the single key `ingress.yaml`; equal hosts give one host block with two
path rules, distinct hosts give two host blocks with one rule each.
With no qualifying tier, no `ingress.yaml` entry exists at all. -/
theorem c4_ingress_grouping (p : Payload) (t1 t2 : Tier) (i1 i2 : IngressSpec)
    (s1 s2 : ServiceSpec) (hv : validationErrors p = [])
    (hi1 : t1.ingress = some i1) (hs1 : t1.service = some s1)
    (hi2 : t2.ingress = some i2) (hs2 : t2.service = some s2) :
    (p.tiers.filter (fun t => t.ingress.isSome && t.service.isSome) = [t1, t2] →
      (keys (genFiles p)).count "ingress.yaml" = 1
      ∧ (i1.host = i2.host →
          rulesByHost p.tiers p.appName =
            [(i1.host,
              [{ path := i1.path, serviceName := p.appName ++ "-" ++ t1.name,
                 servicePort := s1.port },
               { path := i2.path, serviceName := p.appName ++ "-" ++ t2.name,
                 servicePort := s2.port }])]
          ∧ getFile (genFiles p) "ingress.yaml" =
              some (ingressDoc (rulesByHost p.tiers p.appName) p.nspace p.appName))
      ∧ (i1.host ≠ i2.host →
          rulesByHost p.tiers p.appName =
            [(i1.host,
              [{ path := i1.path, serviceName := p.appName ++ "-" ++ t1.name,
                 servicePort := s1.port }]),
             (i2.host,
              [{ path := i2.path, serviceName := p.appName ++ "-" ++ t2.name,
                 servicePort := s2.port }])]
          ∧ getFile (genFiles p) "ingress.yaml" =
              some (ingressDoc (rulesByHost p.tiers p.appName) p.nspace p.appName)))
    ∧ (p.tiers.filter (fun t => t.ingress.isSome && t.service.isSome) = [] →
        "ingress.yaml" ∉ keys (genFiles p)) := by
  constructor
  · intro hfilter
    have hne : rulesByHost p.tiers p.appName ≠ [] := by
      unfold rulesByHost
      rw [foldl_ingressStep_filter, hfilter]
      simp only [List.foldl_cons, List.foldl_nil]
      unfold ingressStep
      rw [hi1, hs1, hi2, hs2]
      dsimp only
      exact putRule_ne_nil _ _ _
    have hing : generateIngress p.tiers p.nspace p.appName =
        some (ingressDoc (rulesByHost p.tiers p.appName) p.nspace p.appName) := by
      unfold generateIngress
      have : (rulesByHost p.tiers p.appName).isEmpty = false := by
        cases hr : rulesByHost p.tiers p.appName with
        | nil => exact absurd hr hne
        | cons a l => rfl
      simp [this]
    have hget := getFile_genFiles_ingress hing
    have hcount : (keys (genFiles p)).count "ingress.yaml" = 1 :=
      List.count_eq_one_of_mem (keys_genFiles_nodup p) (mem_keys_of_getFile hget)
    refine ⟨hcount, ?_, ?_⟩
    · intro hhost
      refine ⟨?_, hget⟩
      unfold rulesByHost
      rw [foldl_ingressStep_filter, hfilter]
      simp only [List.foldl_cons, List.foldl_nil]
      unfold ingressStep
      rw [hi1, hs1, hi2, hs2]
      dsimp only
      simp [putRule, hhost]
    · intro hhost
      refine ⟨?_, hget⟩
      unfold rulesByHost
      rw [foldl_ingressStep_filter, hfilter]
      simp only [List.foldl_cons, List.foldl_nil]
      unfold ingressStep
      rw [hi1, hs1, hi2, hs2]
      dsimp only
      simp [putRule, hhost]
  · intro hfilter hk
    rcases mem_keys_genFiles hk with ⟨_, hkey⟩ | ⟨t', ht', horig⟩ | ⟨hsome, _⟩ | ⟨_, hkeys⟩
    · exact absurd hkey (by decide)
    · rcases horig with h1 | h1
      · unfold pass1Origin at h1
        rcases h1 with ⟨_, hkey⟩ | ⟨_, hkey⟩ | ⟨_, hkey⟩ | ⟨_, _, hkey⟩
        · exact absurd hkey.symm
            (pre_ne_const "configmap-" t'.name "ingress.yaml" 0 'c' 'i'
              (by decide) (by decide) (by decide))
        · exact absurd hkey.symm
            (pre_ne_const "secret-" t'.name "ingress.yaml" 0 's' 'i'
              (by decide) (by decide) (by decide))
        · exact absurd hkey.symm
            (pre_ne_const "pvc-" t'.name "ingress.yaml" 0 'p' 'i'
              (by decide) (by decide) (by decide))
        · exact absurd hkey.symm
            (pre_ne_const "pv-" t'.name "ingress.yaml" 0 'p' 'i'
              (by decide) (by decide) (by decide))
      · unfold pass2Origin at h1
        rcases h1 with ⟨_, hkey | hkey⟩ | ⟨_, hkey⟩ | ⟨_, hkey⟩
        · exact absurd hkey.symm
            (pre_ne_const "headless-service-" t'.name "ingress.yaml" 0 'h' 'i'
              (by decide) (by decide) (by decide))
        · exact absurd hkey.symm
            (pre_ne_const "statefulset-" t'.name "ingress.yaml" 0 's' 'i'
              (by decide) (by decide) (by decide))
        · exact absurd hkey.symm
            (pre_ne_const "deployment-" t'.name "ingress.yaml" 0 'd' 'i'
              (by decide) (by decide) (by decide))
        · exact absurd hkey.symm
            (pre_ne_const "service-" t'.name "ingress.yaml" 0 's' 'i'
              (by decide) (by decide) (by decide))
    · rw [show generateIngress p.tiers p.nspace p.appName = none from ?_] at hsome
      · cases hsome
      · unfold generateIngress
        rw [rulesByHost_of_no_qualifier hfilter]
        rfl
    · rcases hkeys with hkey | hkey | hkey <;> exact absurd hkey (by decide)

/-- Concrete tiers for the C4 witness: two qualifying tiers sharing one
ingress host. -/
def c4tier1 : Tier :=
  { name := "api", replicas := 1, image := "nginx", containerPort := 80,
    service := some { type := "ClusterIP", port := 80 },
    ingress := some { host := "example.com", path := "/api" } }

/-- Second concrete tier for the C4 witness. -/
def c4tier2 : Tier :=
  { name := "ui", replicas := 1, image := "nginx", containerPort := 80,
    service := some { type := "ClusterIP", port := 81 },
    ingress := some { host := "example.com", path := "/" } }

/-- Concrete payload for the C4 witness. -/
def c4payload : Payload :=
  { appName := "web", nspace := "dev", tiers := [c4tier1, c4tier2] }

/-- Witness for C4 at a concrete input (shared host case). -/
theorem c4_ingress_grouping_witness :
    (keys (genFiles c4payload)).count "ingress.yaml" = 1
    ∧ rulesByHost c4payload.tiers c4payload.appName =
      [("example.com",
        [{ path := "/api", serviceName := "web" ++ "-" ++ "api", servicePort := 80 },
         { path := "/", serviceName := "web" ++ "-" ++ "ui", servicePort := 81 }])] := by
  have h := c4_ingress_grouping c4payload c4tier1 c4tier2
    { host := "example.com", path := "/api" } { host := "example.com", path := "/" }
    { type := "ClusterIP", port := 80 } { type := "ClusterIP", port := 81 }
    (by decide) rfl rfl rfl rfl
  have h2 := h.1 (by decide)
  exact ⟨h2.1, by simpa using (h2.2.1 rfl).1⟩

/-- C10: two same-named default-workload tiers produce exactly one
`deployment-{name}.yaml` entry, holding the rendering of the second
(later) tier — JS object assignment silently overwrites the first
tier's file. -/
theorem c10_duplicate_tier_overwrite (p : Payload) (t1 t2 : Tier)
    (hv : validationErrors p = []) (htiers : p.tiers = [t1, t2])
    (hname : t1.name = t2.name)
    (hw1 : t1.workloadType = none) (hw2 : t2.workloadType = none) :
    generateKubernetesManifests p = .ok (genFiles p)
    ∧ (keys (genFiles p)).count ("deployment-" ++ t2.name ++ ".yaml") = 1
    ∧ getFile (genFiles p) ("deployment-" ++ t2.name ++ ".yaml") =
        some (generateDeployment t2 p.nspace p.appName
          (getRef (pass1 p).cmRefs t2.name)
          (getRef (pass1 p).secretRefs t2.name)
          (getRef (pass1 p).pvcRefs t2.name)) := by
  have hss2 : isSS t2 = false := by
    simp [isSS, orS, hw2]
  have hget : getFile (genFiles p) ("deployment-" ++ t2.name ++ ".yaml") =
      some (generateDeployment t2 p.nspace p.appName
        (getRef (pass1 p).cmRefs t2.name)
        (getRef (pass1 p).secretRefs t2.name)
        (getRef (pass1 p).pvcRefs t2.name)) := by
    rw [getFile_genFiles_stable
      (pre_ne_const "deployment-" t2.name "ingress.yaml" 0 'd' 'i'
        (by decide) (by decide) (by decide))
      (pre_ne_const "deployment-" t2.name "serviceaccount.yaml" 0 'd' 's'
        (by decide) (by decide) (by decide))
      (pre_ne_const "deployment-" t2.name "role.yaml" 0 'd' 'r'
        (by decide) (by decide) (by decide))
      (pre_ne_const "deployment-" t2.name "rolebinding.yaml" 0 'd' 'r'
        (by decide) (by decide) (by decide))]
    unfold pass2Files
    rw [htiers]
    simp only [List.foldl_cons, List.foldl_nil]
    rw [pass2Step_eq]
    unfold p2svcStep
    split
    · rw [getFile_putFile_ne _ _ _ _
        (pre_ne_pre "deployment-" "service-" t2.name t2.name 0 'd' 's'
          (by decide) (by decide) (by decide))]
      unfold p2workStep
      simp only [hss2, Bool.false_eq_true, if_false]
      exact getFile_putFile_self _ _ _
    · unfold p2workStep
      simp only [hss2, Bool.false_eq_true, if_false]
      exact getFile_putFile_self _ _ _
  exact ⟨by unfold generateKubernetesManifests; simp [hv],
    List.count_eq_one_of_mem (keys_genFiles_nodup p) (mem_keys_of_getFile hget), hget⟩

/-- First concrete tier for the C10 witness. -/
def c10tier1 : Tier :=
  { name := "api", replicas := 1, image := "first", containerPort := 80 }

/-- Second concrete tier for the C10 witness (same name, later wins). -/
def c10tier2 : Tier :=
  { name := "api", replicas := 2, image := "second", containerPort := 81 }

/-- Concrete payload for the C10 witness. -/
def c10payload : Payload :=
  { appName := "web", nspace := "dev", tiers := [c10tier1, c10tier2] }

/-- Witness for C10 at a concrete input: the surviving document is the
second tier's rendering. -/
theorem c10_duplicate_tier_overwrite_witness :
    (keys (genFiles c10payload)).count ("deployment-" ++ c10tier2.name ++ ".yaml") = 1
    ∧ getFile (genFiles c10payload) ("deployment-" ++ c10tier2.name ++ ".yaml") =
        some (generateDeployment c10tier2 c10payload.nspace c10payload.appName
          (getRef (pass1 c10payload).cmRefs c10tier2.name)
          (getRef (pass1 c10payload).secretRefs c10tier2.name)
          (getRef (pass1 c10payload).pvcRefs c10tier2.name)) := by
  have h := c10_duplicate_tier_overwrite c10payload c10tier1 c10tier2
    (by decide) rfl rfl rfl rfl
  exact ⟨h.2.1, h.2.2⟩

end DevEngine
